import Mathlib

set_option maxHeartbeats 1000000

namespace MMP

/-!
Shallow embedding of the multimusic-platform-backend repository.

Python dictionaries, JSON values and handler events are modelled by the
`PyVal` type below; Python dict semantics (first-match association lists,
`get` returning `None` for a missing key, truthiness) are modelled by the
helper functions that follow.  Handlers that can raise are modelled in
`Except PyErr`.
-/

/-- Python values as they flow through the handlers: JSON-serializable
data made of `None`, booleans, integers, strings, lists and dicts. -/
inductive PyVal where
  | null
  | bool (b : Bool)
  | int (n : Int)
  | str (s : String)
  | list (xs : List PyVal)
  | dict (kvs : List (String × PyVal))

/-- Python truthiness (`bool(v)`) for the modelled values. -/
def pyTruthy : PyVal → Bool
  | .null => false
  | .bool b => b
  | .int n => n != 0
  | .str s => s != ""
  | .list xs => !xs.isEmpty
  | .dict kvs => !kvs.isEmpty

/-- Value of key `k` in a dict body, modelling `d.get(k)` (missing key
gives Python `None`). -/
def dGet (kvs : List (String × PyVal)) (k : String) : PyVal :=
  match kvs.find? (fun p => p.1 == k) with
  | some p => p.2
  | none => .null

/-- Value of key `k` in a dict body, or `none` when absent; used where the
Python source indexes with `d[k]` (raising `KeyError`) or tests membership. -/
def dLookup (kvs : List (String × PyVal)) (k : String) : Option PyVal :=
  (kvs.find? (fun p => p.1 == k)).map (·.2)

/-- Keys of a dict body in order. -/
def dKeys (kvs : List (String × PyVal)) : List String := kvs.map (·.1)

/-- Remove key `k` from a dict body, modelling `d.pop(k, None)`. -/
def dPop (kvs : List (String × PyVal)) (k : String) : List (String × PyVal) :=
  kvs.filter (fun p => p.1 != k)

/-- Python `s.startswith(pre)`. -/
def pyStartsWith (s pre : String) : Bool :=
  pre.data.isPrefixOf s.data

/-- Python slicing `s[n:]`. -/
def pyDropChars (n : Nat) (s : String) : String :=
  String.mk (s.data.drop n)

/-- Hexadecimal digit character, lowercase as produced by Python. -/
def hexDigit (n : Nat) : Char :=
  if n < 10 then Char.ofNat (48 + n) else Char.ofNat (87 + n)

/-- Four-digit lowercase hex rendering used by JSON `\uXXXX` escapes. -/
def toHex4 (n : Nat) : String :=
  String.mk [hexDigit (n / 4096 % 16), hexDigit (n / 256 % 16),
             hexDigit (n / 16 % 16), hexDigit (n % 16)]

/-- Escape of a single character inside a JSON string literal, following
`json.dumps` with its default `ensure_ascii=True`: printable ASCII other
than quote and backslash passes through, the usual short escapes are used,
and everything else becomes `\uXXXX` (a surrogate pair beyond the BMP). -/
def jsonEscapeChar (c : Char) : String :=
  if c = '"' then "\\\""
  else if c = '\\' then "\\\\"
  else if c = '\n' then "\\n"
  else if c = '\r' then "\\r"
  else if c = '\t' then "\\t"
  else if c.toNat = 8 then "\\b"
  else if c.toNat = 12 then "\\f"
  else if c.toNat < 32 || c.toNat > 126 then
    if c.toNat ≥ 65536 then
      let v := c.toNat - 65536
      "\\u" ++ toHex4 (55296 + v / 1024) ++ "\\u" ++ toHex4 (56320 + v % 1024)
    else
      "\\u" ++ toHex4 c.toNat
  else
    String.singleton c

/-- JSON rendering of a string literal, quotes included. -/
def jsonString (s : String) : String :=
  "\"" ++ String.join (s.data.map jsonEscapeChar) ++ "\""

mutual

/-- Embedding of `json.dumps` with Python default separators
(`", "` between items, `": "` after keys) and `ensure_ascii=True`. -/
def dumps : PyVal → String
  | .null => "null"
  | .bool true => "true"
  | .bool false => "false"
  | .int n => toString n
  | .str s => jsonString s
  | .list xs => "[" ++ dumpsList xs ++ "]"
  | .dict kvs => "\x7b" ++ dumpsKvs kvs ++ "\x7d"

/-- Comma-joined rendering of JSON array elements. -/
def dumpsList : List PyVal → String
  | [] => ""
  | [x] => dumps x
  | x :: y :: xs => dumps x ++ ", " ++ dumpsList (y :: xs)

/-- Comma-joined rendering of JSON object members. -/
def dumpsKvs : List (String × PyVal) → String
  | [] => ""
  | [(k, v)] => jsonString k ++ ": " ++ dumps v
  | (k, v) :: p :: xs => jsonString k ++ ": " ++ dumps v ++ ", " ++ dumpsKvs (p :: xs)

end

/-!  Response formatter: `src/utils/responses.py`.  -/

/-- API Gateway style response object returned by every handler. -/
structure ApiResponse where
  statusCode : Nat
  headers : List (String × String)
  body : String
deriving Repr, DecidableEq

/-- Header map attached by `success_response` and `error_response`. -/
def jsonCorsHeaders : List (String × String) :=
  [("Content-Type", "application/json"),
   ("Access-Control-Allow-Origin", "*"),
   ("Access-Control-Allow-Headers", "Content-Type,Authorization"),
   ("Access-Control-Allow-Methods", "GET,POST,PUT,DELETE,OPTIONS")]

/-- Embedding of `success_response(data, status_code=200)`: the body is
`json.dumps(data)`.  Call sites relying on the Python default pass `200`. -/
def success_response (data : PyVal) (statusCode : Nat) : ApiResponse :=
  { statusCode := statusCode
    headers := jsonCorsHeaders
    body := dumps data }

/-- Embedding of `error_response(message, status_code=400)`: the body is
the serialization of a single-key object carrying the message under
`error`.  Call sites relying on the Python default pass `400`. -/
def error_response (message : String) (statusCode : Nat) : ApiResponse :=
  { statusCode := statusCode
    headers := jsonCorsHeaders
    body := dumps (.dict [("error", .str message)]) }

/-- Embedding of `redirect_response(location, status_code=302)`. -/
def redirect_response (location : String) (statusCode : Nat) : ApiResponse :=
  { statusCode := statusCode
    headers := [("Location", location), ("Access-Control-Allow-Origin", "*")]
    body := "" }

/-- C1 counterexample: for the JSON-serializable payload `{"x": 1}`, the
body produced by the success operation is the serialization of the payload
itself, not of the wrapper object `{"data": {"x": 1}}`, and it has no
top-level `data` field. -/
theorem c1_success_body_not_data_wrapped :
    (success_response (.dict [("x", .int 1)]) 200).body
        ≠ dumps (.dict [("data", .dict [("x", .int 1)])])
      ∧ (success_response (.dict [("x", .int 1)]) 200).body = "\x7b\"x\": 1\x7d" := by
  constructor
  · decide
  · rfl

/-- C1 (amended): for every JSON-serializable payload `d`, the success
operation returns a response whose body is the JSON serialization of `d`
itself (the flat convention — no `{"data": ...}` wrapper is added), and the
error operation returns a body serializing `{"error": message}`; a
successful body therefore has a top-level `data` field only when the
payload itself does. -/
theorem c1_response_envelope (d : PyVal) (m : String) (sc ec : Nat) :
    (success_response d sc).body = dumps d
      ∧ (success_response d sc).statusCode = sc
      ∧ (error_response m ec).body = dumps (.dict [("error", .str m)])
      ∧ (error_response m ec).statusCode = ec :=
  ⟨rfl, rfl, rfl, rfl⟩

/-!
Token encryption service: `src/services/token_service.py`.

The service wraps `cryptography.fernet.Fernet`, an external SDK.  The
Fernet token construction is public: the token is the urlsafe-base64
encoding of `0x80 || timestamp(8) || IV(16) || AES128-CBC(PKCS7(plaintext))
|| HMAC-SHA256(all the preceding)`.  That construction is embedded
concretely below; only the AES-128 block permutation and the HMAC
compression — cryptographic primitives external to the repository — are
abstracted, as a `FernetCipher` whose fields are constrained by the
standard block-cipher and MAC contracts in the theorems that use them.
Bytes are modelled as natural numbers below 256.
-/

/-- Character of the urlsafe base64 alphabet for a sextet value. -/
def b64Char (n : Nat) : Char :=
  if n < 26 then Char.ofNat (65 + n)
  else if n < 52 then Char.ofNat (97 + (n - 26))
  else if n < 62 then Char.ofNat (48 + (n - 52))
  else if n = 62 then '-' else '_'

/-- Sextet value of a urlsafe base64 character, or `none` for a character
outside the alphabet. -/
def b64Index (c : Char) : Option Nat :=
  if 65 ≤ c.toNat ∧ c.toNat ≤ 90 then some (c.toNat - 65)
  else if 97 ≤ c.toNat ∧ c.toNat ≤ 122 then some (c.toNat - 97 + 26)
  else if 48 ≤ c.toNat ∧ c.toNat ≤ 57 then some (c.toNat - 48 + 52)
  else if c = '-' then some 62
  else if c = '_' then some 63
  else none

/-- Urlsafe base64 encoding of a byte list, three bytes to four
characters, padded with `=`. -/
def b64EncodeChunks : List Nat → List Char
  | [] => []
  | [a] => [b64Char (a / 4), b64Char (a % 4 * 16), '=', '=']
  | [a, b] => [b64Char (a / 4), b64Char (a % 4 * 16 + b / 16), b64Char (b % 16 * 4), '=']
  | a :: b :: c :: rest =>
      b64Char (a / 4) :: b64Char (a % 4 * 16 + b / 16) ::
      b64Char (b % 16 * 4 + c / 64) :: b64Char (c % 64) :: b64EncodeChunks rest

/-- Urlsafe base64 encoding as a string, as returned by
`base64.urlsafe_b64encode(...)`. -/
def b64urlEncode (bs : List Nat) : String :=
  String.mk (b64EncodeChunks bs)

/-- Urlsafe base64 decoding of a character list; fails on characters
outside the alphabet or a malformed group structure. -/
def b64DecodeChunks : List Char → Option (List Nat)
  | [] => some []
  | c1 :: c2 :: c3 :: c4 :: rest =>
      match b64Index c1, b64Index c2 with
      | some a, some b =>
          if c3 = '=' then
            if c4 = '=' ∧ rest = [] then some [a * 4 + b / 16] else none
          else
            match b64Index c3 with
            | some c =>
                if c4 = '=' then
                  if rest = [] then some [a * 4 + b / 16, b % 16 * 16 + c / 4] else none
                else
                  match b64Index c4 with
                  | some d =>
                      (b64DecodeChunks rest).map
                        (fun tail => (a * 4 + b / 16) :: (b % 16 * 16 + c / 4) ::
                                     (c % 4 * 64 + d) :: tail)
                  | none => none
            | none => none
      | _, _ => none
  | _ => none

/-- PKCS7 padding to a 16-byte block boundary: append `n` copies of the
byte `n`, where `n` is the distance to the boundary (16 when already
aligned). -/
def pkcs7Pad (bs : List Nat) : List Nat :=
  bs ++ List.replicate (16 - bs.length % 16) (16 - bs.length % 16)

/-- PKCS7 unpadding: read the final byte `n`, check that the last `n`
bytes all equal `n`, and strip them; fails on malformed padding. -/
def pkcs7Unpad (bs : List Nat) : Option (List Nat) :=
  match bs.getLast? with
  | none => none
  | some n =>
      if n = 0 ∨ bs.length < n then none
      else if (bs.drop (bs.length - n)).all (· = n) then
        some (bs.take (bs.length - n))
      else none

/-- Bytewise xor of two equal-length byte lists. -/
def xorBytes (xs ys : List Nat) : List Nat :=
  List.zipWith (· ^^^ ·) xs ys

/-- Split a byte list into 16-byte blocks (the final block is shorter if
the length is not a multiple of 16). -/
def chunk16 (bs : List Nat) : List (List Nat) :=
  if h : bs = [] then [] else bs.take 16 :: chunk16 (bs.drop 16)
termination_by bs.length
decreasing_by
  simp only [List.length_drop]
  have : bs.length ≠ 0 := fun hlen => h (List.length_eq_zero.mp hlen)
  omega

/-- CBC-mode encryption of a block sequence with chaining value `prev`,
over an abstract block permutation. -/
def cbcEncBlocks (encB : List Nat → List Nat) (prev : List Nat) :
    List (List Nat) → List (List Nat)
  | [] => []
  | p :: ps =>
      let c := encB (xorBytes p prev)
      c :: cbcEncBlocks encB c ps

/-- CBC-mode decryption of a block sequence with chaining value `prev`,
over the inverse block permutation. -/
def cbcDecBlocks (decB : List Nat → List Nat) (prev : List Nat) :
    List (List Nat) → List (List Nat)
  | [] => []
  | c :: cs => xorBytes (decB c) prev :: cbcDecBlocks decB c cs

/-- External cryptographic primitives wrapped by Fernet: the keyed
AES-128 block permutation with its inverse, and the keyed HMAC-SHA256. -/
structure FernetCipher where
  encB : List Nat → List Nat
  decB : List Nat → List Nat
  mac : List Nat → List Nat

/-- AES block contract: on 16-byte blocks the permutation preserves
length and byte range and is inverted by `decB`. -/
def FernetCipher.blockContract (fc : FernetCipher) : Prop :=
  ∀ b : List Nat, b.length = 16 → (∀ x ∈ b, x < 256) →
    fc.decB (fc.encB b) = b ∧ (fc.encB b).length = 16 ∧ ∀ x ∈ fc.encB b, x < 256

/-- MAC contract: HMAC-SHA256 output is 32 bytes. -/
def FernetCipher.macContract (fc : FernetCipher) : Prop :=
  ∀ m : List Nat, (fc.mac m).length = 32 ∧ ∀ x ∈ fc.mac m, x < 256

/-- Fernet token bytes for plaintext bytes `pt`: version `0x80`, 8-byte
timestamp, 16-byte IV, CBC ciphertext of the padded plaintext, then the
HMAC of everything preceding. -/
def fernetEncryptBytes (fc : FernetCipher) (ts iv pt : List Nat) : List Nat :=
  let ct := (cbcEncBlocks fc.encB iv (chunk16 (pkcs7Pad pt))).flatten
  let core := 128 :: ts ++ iv ++ ct
  core ++ fc.mac core

/-- Fernet token verification and decryption on raw token bytes: checks
the minimum length, the HMAC over the signed portion and the version
byte, then CBC-decrypts and unpads. -/
def fernetDecryptBytes (fc : FernetCipher) (tok : List Nat) : Option (List Nat) :=
  if tok.length < 57 then none
  else
    let core := tok.take (tok.length - 32)
    let sig := tok.drop (tok.length - 32)
    if sig ≠ fc.mac core then none
    else
      match core with
      | 128 :: rest =>
          let iv := (rest.drop 8).take 16
          let ct := (rest.drop 8).drop 16
          if ct.length % 16 ≠ 0 ∨ ct.length = 0 then none
          else pkcs7Unpad (cbcDecBlocks fc.decB iv (chunk16 ct)).flatten
      | _ => none

/-- Embedding of `TokenService.encrypt_token`: UTF-8 encode the plaintext
(`token.encode()`, abstracted as `strEncode`), produce the Fernet token
and return it as its base64 text (`encrypted.decode()`).  The per-call
fresh randomness and clock of the underlying scheme enter as `ts` and
`iv`. -/
def encrypt_token (fc : FernetCipher) (ts iv : List Nat)
    (strEncode : String → List Nat) (token : String) : String :=
  b64urlEncode (fernetEncryptBytes fc ts iv (strEncode token))

/-- Embedding of `TokenService.decrypt_token`: base64-decode the token
text, verify and decrypt the Fernet token, and decode the plaintext bytes
back to a string (`decrypted.decode()`, abstracted as `strDecode`);
`none` models the InvalidCiphertext failure the source re-raises. -/
def decrypt_token (fc : FernetCipher)
    (strDecode : List Nat → Option String) (encryptedToken : String) : Option String :=
  match b64DecodeChunks encryptedToken.data with
  | none => none
  | some tok =>
      match fernetDecryptBytes fc tok with
      | none => none
      | some pt => strDecode pt

/-- Decoding inverts the base64 alphabet table. -/
theorem b64Index_b64Char : ∀ n < 64, b64Index (b64Char n) = some n := by decide

/-- Alphabet characters are never the padding character. -/
theorem b64Char_ne_pad : ∀ n < 64, b64Char n ≠ '=' := by decide

/-- Base64 decoding inverts base64 encoding on byte lists. -/
theorem b64_roundtrip : ∀ bs : List Nat, (∀ b ∈ bs, b < 256) →
    b64DecodeChunks (b64EncodeChunks bs) = some bs
  | [], _ => rfl
  | [a], h => by
      have ha : a < 256 := h a (by simp)
      have h1 : a / 4 < 64 := by omega
      have h2 : a % 4 * 16 < 64 := by omega
      simp [b64EncodeChunks, b64DecodeChunks,
        b64Index_b64Char _ h1, b64Index_b64Char _ h2]
      omega
  | [a, b], h => by
      have ha : a < 256 := h a (by simp)
      have hb : b < 256 := h b (by simp)
      have h1 : a / 4 < 64 := by omega
      have h2 : a % 4 * 16 + b / 16 < 64 := by omega
      have h3 : b % 16 * 4 < 64 := by omega
      have hc3 : b64Char (b % 16 * 4) ≠ '=' := b64Char_ne_pad _ h3
      simp [b64EncodeChunks, b64DecodeChunks,
        b64Index_b64Char _ h1, b64Index_b64Char _ h2, b64Index_b64Char _ h3, hc3]
      omega
  | a :: b :: c :: rest, h => by
      have ha : a < 256 := h a (by simp)
      have hb : b < 256 := h b (by simp)
      have hc : c < 256 := h c (by simp)
      have h1 : a / 4 < 64 := by omega
      have h2 : a % 4 * 16 + b / 16 < 64 := by omega
      have h3 : b % 16 * 4 + c / 64 < 64 := by omega
      have h4 : c % 64 < 64 := by omega
      have hc3 : b64Char (b % 16 * 4 + c / 64) ≠ '=' := b64Char_ne_pad _ h3
      have hc4 : b64Char (c % 64) ≠ '=' := b64Char_ne_pad _ h4
      have ih := b64_roundtrip rest (fun x hx => h x (by simp [hx]))
      simp [b64EncodeChunks, b64DecodeChunks,
        b64Index_b64Char _ h1, b64Index_b64Char _ h2, b64Index_b64Char _ h3,
        b64Index_b64Char _ h4, hc3, hc4, ih]
      omega

/-- PKCS7 unpadding inverts PKCS7 padding. -/
theorem pkcs7Unpad_pkcs7Pad (bs : List Nat) : pkcs7Unpad (pkcs7Pad bs) = some bs := by
  have hn1 : 1 ≤ 16 - bs.length % 16 := by omega
  set n := 16 - bs.length % 16 with hndef
  obtain ⟨m, hm⟩ : ∃ m, n = m + 1 := ⟨n - 1, by omega⟩
  have hrep : List.replicate n n = List.replicate m n ++ [n] := by
    rw [hm, List.replicate_succ']
  have hlast : (pkcs7Pad bs).getLast? = some n := by
    rw [pkcs7Pad, ← hndef, hrep, ← List.append_assoc, List.getLast?_concat]
  have hlen : (pkcs7Pad bs).length = bs.length + n := by
    rw [pkcs7Pad, ← hndef]
    simp
  simp only [pkcs7Unpad, hlast]
  rw [if_neg (by omega)]
  have harith : (pkcs7Pad bs).length - n = bs.length := by omega
  rw [harith]
  have hdrop : (pkcs7Pad bs).drop bs.length = List.replicate n n := by
    rw [pkcs7Pad, ← hndef]
    exact List.drop_left bs _
  have htake : (pkcs7Pad bs).take bs.length = bs := by
    rw [pkcs7Pad, ← hndef]
    exact List.take_left bs _
  rw [hdrop, htake, if_pos (by simp [List.all_eq_true, List.mem_replicate])]

/-- Padded data is block-aligned. -/
theorem pkcs7Pad_length_mod (bs : List Nat) : (pkcs7Pad bs).length % 16 = 0 := by
  rw [pkcs7Pad]
  simp only [List.length_append, List.length_replicate]
  omega

/-- Padded data is nonempty. -/
theorem pkcs7Pad_ne_nil (bs : List Nat) : pkcs7Pad bs ≠ [] := by
  rw [pkcs7Pad]
  intro hcontra
  have := congrArg List.length hcontra
  simp only [List.length_append, List.length_replicate, List.length_nil] at this
  omega

/-- Padding bytes stay below 256 when the data bytes do. -/
theorem pkcs7Pad_lt (bs : List Nat) (h : ∀ x ∈ bs, x < 256) :
    ∀ x ∈ pkcs7Pad bs, x < 256 := by
  intro x hx
  rw [pkcs7Pad] at hx
  rcases List.mem_append.mp hx with hx | hx
  · exact h x hx
  · have := (List.mem_replicate.mp hx).2
    omega

/-- Concatenating the blocks of a list recovers the list. -/
theorem flatten_chunk16 (bs : List Nat) : (chunk16 bs).flatten = bs := by
  by_cases hb : bs = []
  · subst hb
    rw [chunk16]
    simp
  · rw [chunk16, dif_neg hb]
    simp only [List.flatten_cons]
    rw [flatten_chunk16 (bs.drop 16)]
    exact List.take_append_drop 16 bs
termination_by bs.length
decreasing_by
  simp only [List.length_drop]
  have : bs.length ≠ 0 := fun hlen => hb (List.length_eq_zero.mp hlen)
  omega

/-- Blocks of a block-aligned list all have length 16 and keep the byte
range of the list. -/
theorem chunk16_wf (bs : List Nat) (hmod : bs.length % 16 = 0)
    (hlt : ∀ x ∈ bs, x < 256) :
    ∀ b ∈ chunk16 bs, b.length = 16 ∧ ∀ x ∈ b, x < 256 := by
  by_cases hb : bs = []
  · subst hb
    rw [chunk16]
    simp
  · have hlen : bs.length ≠ 0 := fun hlen => hb (List.length_eq_zero.mp hlen)
    have h16 : 16 ≤ bs.length := by omega
    rw [chunk16, dif_neg hb]
    intro b hmem
    rcases List.mem_cons.mp hmem with hmem | hmem
    · subst hmem
      constructor
      · simp [List.length_take]
        omega
      · intro x hx
        exact hlt x (List.take_subset 16 bs hx)
    · exact chunk16_wf (bs.drop 16)
        (by simp only [List.length_drop]; omega)
        (fun x hx => hlt x (List.drop_subset 16 bs hx)) b hmem
termination_by bs.length
decreasing_by
  simp only [List.length_drop]
  omega

/-- Splitting a concatenation of 16-byte blocks recovers the blocks. -/
theorem chunk16_flatten (blocks : List (List Nat))
    (h : ∀ b ∈ blocks, b.length = 16) : chunk16 blocks.flatten = blocks := by
  induction blocks with
  | nil =>
      rw [List.flatten_nil, chunk16]
      simp
  | cons b rest ih =>
      have hb16 : b.length = 16 := h b (by simp)
      have hbne : b ++ rest.flatten ≠ [] := by
        intro hcontra
        have := congrArg List.length hcontra
        simp only [List.length_append, List.length_nil] at this
        omega
      rw [List.flatten_cons, chunk16, dif_neg hbne]
      rw [← hb16, List.take_left, List.drop_left]
      rw [ih (fun x hx => h x (by simp [hx]))]

/-- Length of a bytewise xor of equal-length lists. -/
theorem xorBytes_length (xs ys : List Nat) (h : xs.length = ys.length) :
    (xorBytes xs ys).length = xs.length := by
  simp [xorBytes, h]

/-- Bytewise xor keeps the byte range. -/
theorem xorBytes_lt : ∀ xs ys : List Nat, (∀ x ∈ xs, x < 256) →
    (∀ y ∈ ys, y < 256) → ∀ z ∈ xorBytes xs ys, z < 256
  | [], _, _, _ => by simp [xorBytes]
  | _ :: _, [], _, _ => by simp [xorBytes]
  | a :: xs, b :: ys, hx, hy => by
      intro z hz
      simp only [xorBytes, List.zipWith_cons_cons, List.mem_cons] at hz
      rcases hz with hz | hz
      · subst hz
        have h256 : (256 : Nat) = 2 ^ 8 := by norm_num
        rw [h256]
        exact Nat.xor_lt_two_pow (by rw [← h256]; exact hx a (by simp))
          (by rw [← h256]; exact hy b (by simp))
      · exact xorBytes_lt xs ys (fun x hmem => hx x (by simp [hmem]))
          (fun y hmem => hy y (by simp [hmem])) z hz

/-- Xoring twice with the same mask is the identity. -/
theorem xorBytes_cancel : ∀ xs ys : List Nat, xs.length = ys.length →
    xorBytes (xorBytes xs ys) ys = xs
  | [], _, _ => by simp [xorBytes]
  | a :: xs, [], h => by simp at h
  | a :: xs, b :: ys, h => by
      simp only [xorBytes, List.zipWith_cons_cons]
      rw [Nat.xor_cancel_right]
      congr 1
      exact xorBytes_cancel xs ys (by simpa using h)

/-- Blocks produced by CBC encryption are well-formed 16-byte blocks. -/
theorem cbcEncBlocks_wf (fc : FernetCipher) (hB : fc.blockContract) :
    ∀ ps prev, (∀ p ∈ ps, p.length = 16 ∧ ∀ x ∈ p, x < 256) →
      prev.length = 16 → (∀ x ∈ prev, x < 256) →
      ∀ b ∈ cbcEncBlocks fc.encB prev ps, b.length = 16 ∧ ∀ x ∈ b, x < 256
  | [], prev, _, _, _ => by simp [cbcEncBlocks]
  | p :: ps, prev, hps, hprevlen, hprevlt => by
      have hp := hps p (by simp)
      have hxlen : (xorBytes p prev).length = 16 := by
        rw [xorBytes_length p prev (by omega)]
        exact hp.1
      have hxlt : ∀ x ∈ xorBytes p prev, x < 256 := xorBytes_lt p prev hp.2 hprevlt
      have hc := hB (xorBytes p prev) hxlen hxlt
      intro b hb
      simp only [cbcEncBlocks, List.mem_cons] at hb
      rcases hb with hb | hb
      · subst hb
        exact ⟨hc.2.1, hc.2.2⟩
      · exact cbcEncBlocks_wf fc hB ps (fc.encB (xorBytes p prev))
          (fun q hq => hps q (by simp [hq])) hc.2.1 hc.2.2 b hb

/-- CBC decryption inverts CBC encryption given the block contract. -/
theorem cbcDecBlocks_cbcEncBlocks (fc : FernetCipher) (hB : fc.blockContract) :
    ∀ ps prev, (∀ p ∈ ps, p.length = 16 ∧ ∀ x ∈ p, x < 256) →
      prev.length = 16 → (∀ x ∈ prev, x < 256) →
      cbcDecBlocks fc.decB prev (cbcEncBlocks fc.encB prev ps) = ps
  | [], prev, _, _, _ => rfl
  | p :: ps, prev, hps, hprevlen, hprevlt => by
      have hp := hps p (by simp)
      have hxlen : (xorBytes p prev).length = 16 := by
        rw [xorBytes_length p prev (by omega)]
        exact hp.1
      have hxlt : ∀ x ∈ xorBytes p prev, x < 256 := xorBytes_lt p prev hp.2 hprevlt
      have hc := hB (xorBytes p prev) hxlen hxlt
      simp only [cbcEncBlocks, cbcDecBlocks]
      rw [hc.1, xorBytes_cancel p prev (by omega)]
      rw [cbcDecBlocks_cbcEncBlocks fc hB ps (fc.encB (xorBytes p prev))
          (fun q hq => hps q (by simp [hq])) hc.2.1 hc.2.2]

/-- Length of a concatenation of 16-byte blocks. -/
theorem flatten_length_of_blocks (blocks : List (List Nat))
    (h : ∀ b ∈ blocks, b.length = 16) :
    blocks.flatten.length = 16 * blocks.length := by
  induction blocks with
  | nil => simp
  | cons b rest ih =>
      simp only [List.flatten_cons, List.length_append, List.length_cons]
      rw [h b (by simp), ih (fun x hx => h x (by simp [hx]))]
      ring

/-- Fernet decryption inverts Fernet encryption on token bytes, for any
block cipher and MAC satisfying their contracts. -/
theorem fernetDecryptBytes_fernetEncryptBytes (fc : FernetCipher)
    (hB : fc.blockContract) (hM : fc.macContract) (ts iv pt : List Nat)
    (hts : ts.length = 8) (hiv : iv.length = 16) (hivlt : ∀ x ∈ iv, x < 256)
    (hpt : ∀ x ∈ pt, x < 256) :
    fernetDecryptBytes fc (fernetEncryptBytes fc ts iv pt) = some pt := by
  have hblocks := chunk16_wf (pkcs7Pad pt) (pkcs7Pad_length_mod pt) (pkcs7Pad_lt pt hpt)
  have hblocks' : ∀ b ∈ chunk16 (pkcs7Pad pt), b.length = 16 := fun b hb => (hblocks b hb).1
  have henc := cbcEncBlocks_wf fc hB (chunk16 (pkcs7Pad pt)) iv hblocks hiv hivlt
  have henc' : ∀ b ∈ cbcEncBlocks fc.encB iv (chunk16 (pkcs7Pad pt)), b.length = 16 :=
    fun b hb => (henc b hb).1
  set ct := (cbcEncBlocks fc.encB iv (chunk16 (pkcs7Pad pt))).flatten with hctdef
  have hctlen : ct.length = 16 * (cbcEncBlocks fc.encB iv (chunk16 (pkcs7Pad pt))).length :=
    flatten_length_of_blocks _ henc'
  have hchunkne : chunk16 (pkcs7Pad pt) ≠ [] := by
    intro hcontra
    have := flatten_chunk16 (pkcs7Pad pt)
    rw [hcontra] at this
    exact pkcs7Pad_ne_nil pt this.symm
  have hencne : (cbcEncBlocks fc.encB iv (chunk16 (pkcs7Pad pt))).length ≠ 0 := by
    cases hchunk : chunk16 (pkcs7Pad pt) with
    | nil => exact absurd hchunk hchunkne
    | cons b rest =>
        simp [cbcEncBlocks]
  set core : List Nat := 128 :: ts ++ iv ++ ct with hcoredef
  have hcorelen : core.length = 25 + ct.length := by
    simp [hcoredef, hts, hiv]
    omega
  have hmac := hM core
  rw [fernetEncryptBytes, fernetDecryptBytes]
  simp only [← hctdef, ← hcoredef]
  rw [if_neg (by
    simp only [List.length_append, hcorelen, hmac.1]
    omega)]
  have htoklen : (core ++ fc.mac core).length - 32 = core.length := by
    simp only [List.length_append, hmac.1]
    omega
  rw [htoklen, List.take_left, List.drop_left]
  rw [if_neg (by simp)]
  have hcore_shape : core = 128 :: (ts ++ iv ++ ct) := by
    simp [hcoredef]
  rw [hcore_shape]
  have hdrop8 : (ts ++ iv ++ ct).drop 8 = iv ++ ct := by
    rw [List.append_assoc, ← hts]
    exact List.drop_left ts _
  have htake16 : (iv ++ ct).take 16 = iv := by
    rw [← hiv]
    exact List.take_left iv ct
  have hdrop16 : (iv ++ ct).drop 16 = ct := by
    rw [← hiv]
    exact List.drop_left iv ct
  simp only [hdrop8, htake16, hdrop16]
  rw [if_neg (by
    push_neg
    constructor
    · rw [hctlen]
      omega
    · rw [hctlen]
      omega)]
  rw [chunk16_flatten _ henc']
  rw [cbcDecBlocks_cbcEncBlocks fc hB _ iv hblocks hiv hivlt]
  rw [flatten_chunk16]
  exact pkcs7Unpad_pkcs7Pad pt

/-- Service-level roundtrip: decrypting an encrypted token recovers the
plaintext, for any primitives satisfying their contracts.  Shared by the
roundtrip and stored-token theorems below. -/
theorem decrypt_token_encrypt_token_eq (fc : FernetCipher)
    (hB : fc.blockContract) (hM : fc.macContract) (ts iv : List Nat)
    (strEncode : String → List Nat) (strDecode : List Nat → Option String)
    (T : String)
    (hts : ts.length = 8) (htslt : ∀ x ∈ ts, x < 256)
    (hiv : iv.length = 16) (hivlt : ∀ x ∈ iv, x < 256)
    (hencT : ∀ b ∈ strEncode T, b < 256)
    (hdecT : strDecode (strEncode T) = some T) :
    decrypt_token fc strDecode (encrypt_token fc ts iv strEncode T) = some T := by
  have hblocks := chunk16_wf (pkcs7Pad (strEncode T)) (pkcs7Pad_length_mod _)
    (pkcs7Pad_lt _ hencT)
  have henc := cbcEncBlocks_wf fc hB (chunk16 (pkcs7Pad (strEncode T))) iv hblocks hiv hivlt
  have htoklt : ∀ x ∈ fernetEncryptBytes fc ts iv (strEncode T), x < 256 := by
    intro x hx
    rw [fernetEncryptBytes] at hx
    rcases List.mem_append.mp hx with hx | hx
    · rcases List.mem_cons.mp hx with hx | hx
      · omega
      · rcases List.mem_append.mp hx with hx | hx
        · rcases List.mem_append.mp hx with hx | hx
          · exact htslt x hx
          · exact hivlt x hx
        · rcases List.mem_flatten.mp hx with ⟨b, hb, hxb⟩
          exact (henc b hb).2 x hxb
    · exact (hM _).2 x hx
  have hdata : (String.mk (b64EncodeChunks (fernetEncryptBytes fc ts iv (strEncode T)))).data
      = b64EncodeChunks (fernetEncryptBytes fc ts iv (strEncode T)) := rfl
  simp only [decrypt_token, encrypt_token, b64urlEncode, hdata,
    b64_roundtrip _ htoklt,
    fernetDecryptBytes_fernetEncryptBytes fc hB hM ts iv (strEncode T) hts hiv hivlt hencT,
    hdecT]

/-- C4: for every plaintext token string `T`, decrypting the result of
encrypting `T` with the same configured Token Encryption Service returns
exactly `T`: `decrypt_token (encrypt_token T) = T`.  The AES block
permutation, the HMAC, and the UTF-8 string codec are the external
primitives, assumed to satisfy their standard contracts; the timestamp and
IV are the per-call randomness of the scheme. -/
theorem c4_decrypt_encrypt_roundtrip (fc : FernetCipher)
    (hB : fc.blockContract) (hM : fc.macContract) (ts iv : List Nat)
    (strEncode : String → List Nat) (strDecode : List Nat → Option String)
    (T : String)
    (hts : ts.length = 8) (htslt : ∀ x ∈ ts, x < 256)
    (hiv : iv.length = 16) (hivlt : ∀ x ∈ iv, x < 256)
    (hencT : ∀ b ∈ strEncode T, b < 256)
    (hdecT : strDecode (strEncode T) = some T) :
    decrypt_token fc strDecode (encrypt_token fc ts iv strEncode T) = some T :=
  decrypt_token_encrypt_token_eq fc hB hM ts iv strEncode strDecode T
    hts htslt hiv hivlt hencT hdecT

/-- Identity block permutation standing in for AES in witnesses, with a
constant MAC. -/
def idCipher : FernetCipher :=
  { encB := fun b => b
    decB := fun b => b
    mac := fun _ => List.replicate 32 0 }

/-- C4 witness: the roundtrip theorem applied to the concrete plaintext
string `ab`, the identity block permutation, a constant MAC, a zero
timestamp and IV, and the explicit byte codec for `ab`. -/
theorem c4_roundtrip_witness :
    decrypt_token idCipher (fun bs => if bs = [97, 98] then some "ab" else none)
      (encrypt_token idCipher (List.replicate 8 0) (List.replicate 16 0)
        (fun s => s.data.map Char.toNat) "ab") = some "ab" := by
  apply c4_decrypt_encrypt_roundtrip idCipher
    (fun b hlen hlt => ⟨rfl, hlen, hlt⟩)
    (fun m => ⟨rfl, by
      intro x hx
      have := List.eq_of_mem_replicate hx
      omega⟩)
    (List.replicate 8 0) (List.replicate 16 0)
    (fun s => s.data.map Char.toNat)
    (fun bs => if bs = [97, 98] then some "ab" else none) "ab"
    (by simp) (by intro x hx; have := List.eq_of_mem_replicate hx; omega)
    (by simp) (by intro x hx; have := List.eq_of_mem_replicate hx; omega)
    (by decide) (by decide)

/-!  Python exceptions surfaced by the handlers.  -/

/-- Exception kinds raised by the modelled code.  The message carried by
`valueError` is the exact text the handlers match on; the other kinds are
only routed to generic 500 responses, so their Python `str(e)` text is
abbreviated by `pyErrStr`. -/
inductive PyErr where
  | valueError (msg : String)
  | attributeError
  | keyError (key : String)
  | invalidToken
  | httpError (status : Nat)
deriving DecidableEq, Repr

/-- Abbreviated `str(e)` for the modelled exceptions. -/
def pyErrStr : PyErr → String
  | .valueError m => m
  | .attributeError => "AttributeError"
  | .keyError k => k
  | .invalidToken => "InvalidToken"
  | .httpError s => "HTTP " ++ toString s

/-!
JWT session service: `src/services/jwt_service.py`.

The PyJWT library is external; it is modelled at its interface
granularity as a signed-claims container: `jwt.encode` pairs the claims
with their MAC under the configured secret and algorithm (`macSign`), and
`jwt.decode` recomputes and compares the MAC, then enforces the `exp`
claim against the current time, raising `ExpiredSignatureError` once the
expiry is not in the future.
-/

/-- Claims issued by `create_token`: `user_id`, `exp` and `iat`, with
times in epoch seconds. -/
structure JwtPayload where
  user_id : String
  exp : Nat
  iat : Nat
deriving DecidableEq, Repr

/-- A signed token: claims plus signature bytes. -/
structure JwtSigned where
  payload : JwtPayload
  sig : List Nat
deriving DecidableEq, Repr

/-- Outcome of `jwt.decode`. -/
inductive JwtResult where
  | ok (payload : JwtPayload)
  | expired
  | invalid
deriving DecidableEq, Repr

/-- External `jwt.encode` under a fixed secret and algorithm. -/
def jwtEncode (macSign : JwtPayload → List Nat) (payload : JwtPayload) : JwtSigned :=
  { payload := payload, sig := macSign payload }

/-- External `jwt.decode` under the same secret and algorithm: signature
check, then expiry check at time `now`. -/
def jwtDecode (macSign : JwtPayload → List Nat) (now : Nat) (tok : JwtSigned) : JwtResult :=
  if tok.sig ≠ macSign tok.payload then .invalid
  else if tok.payload.exp ≤ now then .expired
  else .ok tok.payload

/-- Embedding of `JWTService.create_token`: claims are
`user_id = userId`, `exp = now + expiration_days` in days, `iat = now`. -/
def create_token (macSign : JwtPayload → List Nat) (expirationDays : Nat)
    (now : Nat) (userId : String) : JwtSigned :=
  jwtEncode macSign
    { user_id := userId, exp := now + expirationDays * 86400, iat := now }

/-- Embedding of `JWTService.verify_token`: the `user_id` claim on
success; `None` on expiry, signature mismatch or any other failure, all
folded together. -/
def verify_token (macSign : JwtPayload → List Nat) (now : Nat)
    (tok : JwtSigned) : Option String :=
  match jwtDecode macSign now tok with
  | .ok payload => some payload.user_id
  | .expired => none
  | .invalid => none

/-- C6: for every non-empty userId string, with the same configured JWT
secret and algorithm (the same `macSign`) and verification occurring
before the expiration window elapses,
`verifyToken(createToken(userId))` returns exactly `userId`. -/
theorem c6_verify_create_roundtrip (macSign : JwtPayload → List Nat)
    (expirationDays createdAt verifiedAt : Nat) (userId : String)
    (huid : userId ≠ "")
    (hwindow : verifiedAt < createdAt + expirationDays * 86400) :
    verify_token macSign verifiedAt
      (create_token macSign expirationDays createdAt userId) = some userId := by
  rw [verify_token, create_token, jwtEncode, jwtDecode]
  rw [if_neg (by simp)]
  rw [if_neg (by simp; omega)]

/-- C6 witness: the roundtrip theorem at userId `u1`, a constant MAC, a
7-day window, creation time 0 and verification time 1. -/
theorem c6_verify_create_witness :
    verify_token (fun _ => [1]) 1 (create_token (fun _ => [1]) 7 0 "u1") = some "u1" :=
  c6_verify_create_roundtrip (fun _ => [1]) 7 0 1 "u1" (by decide) (by norm_num)

/-!
Persistence service.

The handlers in `src/` call the canonical single-table operations
(`put_item`, `get_item`, `delete_item`, `queryByPrefix`, `update_item`,
`get_user_by_provider`); the repository file shipped under
`src/services/dynamodb_service.py` contains only the legacy two-table
variant, so the canonical operations are modelled from the specification
(section 4.4).  The store is a list of items; an item is a Python dict
keyed by its `userId` and `sk` string attributes.
-/

/-- A stored item: a Python dict of attribute names to values. -/
abbrev Item := List (String × PyVal)

/-- The single-table store. -/
abbrev DB := List Item

/-- Modelled from the spec: the composite key of an item, its `userId`
partition key and `sk` sort key (section 3: all persisted records share
the two-part key). -/
def itemKey (item : Item) : Option (String × String) :=
  match dLookup item "userId", dLookup item "sk" with
  | some (.str u), some (.str s) => some (u, s)
  | _, _ => none

/-- Modelled from the spec: `putItem(item)` — unconditional upsert keyed
by (userId, sk).  The canonical implementation file is absent from
`src/`; only its callers are present. -/
def put_item (db : DB) (item : Item) : DB :=
  db.filter (fun it => !decide (itemKey it = itemKey item)) ++ [item]

/-- Modelled from the spec: `getItem(userId, sk)` — point lookup,
returning no value if absent. -/
def get_item (db : DB) (userId sk : String) : Option Item :=
  db.find? (fun it => decide (itemKey it = some (userId, sk)))

/-- Modelled from the spec: `deleteItem(userId, sk)` — unconditional
delete, no error if absent. -/
def delete_item (db : DB) (userId sk : String) : DB :=
  db.filter (fun it => !decide (itemKey it = some (userId, sk)))

/-- Modelled from the spec: `queryByPrefix(userId, skPrefix)` — all items
of the user whose sort key starts with the given text. -/
def queryByPrefix (db : DB) (userId skPre : String) : List Item :=
  db.filter (fun it =>
    match dLookup it "userId", dLookup it "sk" with
    | some (.str u), some (.str s) => u == userId && pyStartsWith s skPre
    | _, _ => false)

/-- Set attribute `k` to `v` in an item, replacing an existing value. -/
def dSet (kvs : Item) (k : String) (v : PyVal) : Item :=
  if (kvs.find? (fun p => p.1 == k)).isSome then
    kvs.map (fun p => if p.1 == k then (p.1, v) else p)
  else
    kvs ++ [(k, v)]

/-- Modelled from the spec: `updateItem(userId, sk, updates)` — partial
attribute merge touching exactly the named attributes. -/
def update_item (db : DB) (userId sk : String) (updates : Item) : DB :=
  db.map (fun it =>
    if decide (itemKey it = some (userId, sk)) then
      updates.foldl (fun acc kv => dSet acc kv.1 kv.2) it
    else it)

/-- Modelled from the spec: `findUserByProvider` (called
`get_user_by_provider` by the handlers) — full-table scan filtered to
auth-link records matching the provider and provider-supplied id, first
match wins, no match is not an error. -/
def get_user_by_provider (db : DB) (provider providerId : String) : Option Item :=
  db.find? (fun it =>
    match dLookup it "sk", dLookup it "providerId" with
    | some (.str s), some (.str pid) => s == ("auth#" ++ provider) && pid == providerId
    | _, _ => false)

/-!
Base authentication handler: `src/handlers/auth/base.py`.
-/

/-- Profile record written for a new user by `find_or_create_user`. -/
def mmpProfileItem (provider userId email displayName : String)
    (avatarUrl : Option String) (timestamp : String) : Item :=
  [("userId", .str userId),
   ("sk", .str "PROFILE"),
   ("email", .str email),
   ("displayName", .str displayName),
   ("avatarUrl", .str (avatarUrl.getD "")),
   ("primaryAuthProvider", .str provider),
   ("createdAt", .str timestamp),
   ("updatedAt", .str timestamp)]

/-- Auth provider link record written by `find_or_create_user`. -/
def mmpAuthLinkItem (provider userId providerId email : String)
    (timestamp : String) : Item :=
  [("userId", .str userId),
   ("sk", .str ("auth#" ++ provider)),
   ("providerId", .str providerId),
   ("email", .str email),
   ("linked", .bool true),
   ("linkedAt", .str timestamp)]

/-- Embedding of `BaseAuthHandler.find_or_create_user`: look up the auth
provider link; return its owning user id when found, otherwise create a
profile and a link under a freshly generated internal id.  The random id
from `generate_internal_user_id` and the current time enter as `freshId`
and `timestamp`. -/
def find_or_create_user (db : DB) (provider freshId timestamp : String)
    (providerId email displayName : String) (avatarUrl : Option String) :
    Except PyErr (String × DB) :=
  match get_user_by_provider db provider providerId with
  | some existing =>
      match dLookup existing "userId" with
      | some (.str u) => .ok (u, db)
      | some _ => .error .attributeError
      | none => .error (.keyError "userId")
  | none =>
      let profile := mmpProfileItem provider freshId email displayName avatarUrl timestamp
      let link := mmpAuthLinkItem provider freshId providerId email timestamp
      .ok (freshId, put_item (put_item db profile) link)

/-- Sort keys of auth provider links never collide with the profile sort
key. -/
theorem authLink_sk_ne_profile_sk (p : String) : "auth#" ++ p ≠ "PROFILE" := by
  intro h
  have h2 := congrArg String.data h
  rw [String.data_append] at h2
  have ha : ("auth#" : String).data = ['a', 'u', 't', 'h', '#'] := rfl
  have hb : ("PROFILE" : String).data = ['P', 'R', 'O', 'F', 'I', 'L', 'E'] := rfl
  rw [ha, hb] at h2
  simp at h2

/-- Key of the profile record written for a new user. -/
theorem itemKey_mmpProfileItem (provider userId email displayName : String)
    (avatarUrl : Option String) (timestamp : String) :
    itemKey (mmpProfileItem provider userId email displayName avatarUrl timestamp)
      = some (userId, "PROFILE") := rfl

/-- Key of the auth link record written for a new user. -/
theorem itemKey_mmpAuthLinkItem (provider userId providerId email timestamp : String) :
    itemKey (mmpAuthLinkItem provider userId providerId email timestamp)
      = some (userId, "auth#" ++ provider) := rfl

/-- The provider scan does not match a profile record but matches the
link record written for (provider, providerId). -/
theorem get_user_by_provider_append (db : DB)
    (provider userId providerId email displayName timestamp : String)
    (avatarUrl : Option String)
    (hnolink : get_user_by_provider db provider providerId = none) :
    get_user_by_provider
        (db ++ [mmpProfileItem provider userId email displayName avatarUrl timestamp,
                mmpAuthLinkItem provider userId providerId email timestamp])
        provider providerId
      = some (mmpAuthLinkItem provider userId providerId email timestamp) := by
  rw [get_user_by_provider] at hnolink ⊢
  rw [List.find?_append, hnolink, Option.none_or]
  have hne : ¬ (("PROFILE" : String) == "auth#" ++ provider) = true := by
    simp only [beq_iff_eq]
    exact fun h => authLink_sk_ne_profile_sk provider h.symm
  simp [mmpProfileItem, mmpAuthLinkItem, dLookup, List.find?, hne]

/-- C3: calling `find_or_create_user` twice with the same
(provider, providerId) pair returns the same internal user id both times
and creates exactly one profile record and one auth provider link record
in total: the first call appends exactly those two records, and the
second call (whatever fresh id, timestamp, email, display name and avatar
it is given) returns the same user id and leaves the store unchanged.
Hypotheses: no link for (provider, providerId) exists yet, and the
freshly generated `mmp_` id is unused — the sole identity-creation path
generates it at random. -/
theorem c3_find_or_create_user_idempotent (db : DB)
    (provider freshId ts1 providerId email displayName : String)
    (avatarUrl : Option String)
    (freshId2 ts2 email2 displayName2 : String) (avatarUrl2 : Option String)
    (hnolink : get_user_by_provider db provider providerId = none)
    (hfresh : ∀ it ∈ db, itemKey it ≠ some (freshId, "PROFILE")
      ∧ itemKey it ≠ some (freshId, "auth#" ++ provider)) :
    find_or_create_user db provider freshId ts1 providerId email displayName avatarUrl
        = .ok (freshId,
            db ++ [mmpProfileItem provider freshId email displayName avatarUrl ts1,
                   mmpAuthLinkItem provider freshId providerId email ts1])
      ∧ find_or_create_user
          (db ++ [mmpProfileItem provider freshId email displayName avatarUrl ts1,
                  mmpAuthLinkItem provider freshId providerId email ts1])
          provider freshId2 ts2 providerId email2 displayName2 avatarUrl2
        = .ok (freshId,
            db ++ [mmpProfileItem provider freshId email displayName avatarUrl ts1,
                   mmpAuthLinkItem provider freshId providerId email ts1]) := by
  constructor
  · rw [find_or_create_user, hnolink]
    have h1 : put_item db (mmpProfileItem provider freshId email displayName avatarUrl ts1)
        = db ++ [mmpProfileItem provider freshId email displayName avatarUrl ts1] := by
      rw [put_item]
      congr 1
      rw [List.filter_eq_self]
      intro it hit
      rw [itemKey_mmpProfileItem]
      simp only [Bool.not_eq_eq_eq_not, Bool.not_true, decide_eq_false_iff_not]
      exact (hfresh it hit).1
    have h2 : put_item (db ++ [mmpProfileItem provider freshId email displayName avatarUrl ts1])
          (mmpAuthLinkItem provider freshId providerId email ts1)
        = db ++ [mmpProfileItem provider freshId email displayName avatarUrl ts1,
                 mmpAuthLinkItem provider freshId providerId email ts1] := by
      rw [put_item]
      have hfilter : (db ++ [mmpProfileItem provider freshId email displayName avatarUrl ts1]).filter
          (fun it => !decide (itemKey it
            = itemKey (mmpAuthLinkItem provider freshId providerId email ts1)))
          = db ++ [mmpProfileItem provider freshId email displayName avatarUrl ts1] := by
        rw [List.filter_eq_self]
        intro it hit
        rw [itemKey_mmpAuthLinkItem]
        simp only [Bool.not_eq_eq_eq_not, Bool.not_true, decide_eq_false_iff_not]
        rcases List.mem_append.mp hit with hit | hit
        · exact (hfresh it hit).2
        · rcases List.mem_singleton.mp hit with rfl
          rw [itemKey_mmpProfileItem]
          intro hcontra
          exact authLink_sk_ne_profile_sk provider
            (congrArg Prod.snd (Option.some.inj hcontra)).symm
      rw [hfilter, List.append_assoc]
      rfl
    exact congrArg (fun x => Except.ok (freshId, x)) (by rw [h1, h2])
  · rw [find_or_create_user,
      get_user_by_provider_append db provider freshId providerId email displayName ts1
        avatarUrl hnolink]
    rfl

/-- C3 witness: the idempotence theorem on the empty store with provider
`google`, fresh id `mmp_1`, and concrete provider data for both calls. -/
theorem c3_find_or_create_user_witness :
    find_or_create_user [] "google" "mmp_1" "t1" "pid" "e@x" "Dn" none
        = .ok ("mmp_1",
            [mmpProfileItem "google" "mmp_1" "e@x" "Dn" none "t1",
             mmpAuthLinkItem "google" "mmp_1" "pid" "e@x" "t1"])
      ∧ find_or_create_user
          [mmpProfileItem "google" "mmp_1" "e@x" "Dn" none "t1",
           mmpAuthLinkItem "google" "mmp_1" "pid" "e@x" "t1"]
          "google" "mmp_2" "t2" "pid" "e@x" "Dn" none
        = .ok ("mmp_1",
            [mmpProfileItem "google" "mmp_1" "e@x" "Dn" none "t1",
             mmpAuthLinkItem "google" "mmp_1" "pid" "e@x" "t1"]) := by
  have h := c3_find_or_create_user_idempotent [] "google" "mmp_1" "t1" "pid" "e@x" "Dn"
    none "mmp_2" "t2" "e@x" "Dn" none rfl (by simp)
  simpa using h

/-!
Request events.

A Lambda event is a Python dict; the handlers read its `headers`, `body`
and `queryStringParameters` fields.  Each field may be absent, may be
JSON null (API Gateway sends null maps), or may carry a map; the body may
be a raw string or an already-parsed value.  `json.loads` is the external
runtime, abstracted as a `parseJson` parameter returning `none` where the
library would raise.
-/

/-- A header or query-parameter field value: JSON null or a string map. -/
inductive StrMapVal where
  | null
  | dict (kvs : List (String × String))
deriving DecidableEq, Repr

/-- The parts of a Lambda event read by the modelled handlers. -/
structure Event where
  headers : Option StrMapVal
  body : Option PyVal
  queryStringParameters : Option StrMapVal

/-- Lookup in a string map, modelling `d.get(k)` on header and
query-parameter dicts (`none` is Python `None`). -/
def smGet (kvs : List (String × String)) (k : String) : Option String :=
  (kvs.find? (fun p => p.1 == k)).map (·.2)

/-- Python `a or b or ''` over two optional header strings: the first
truthy value, else the second value when present, else the empty
string. -/
def headerOrChain : Option String → Option String → String
  | some v, a2 => if v ≠ "" then v else (match a2 with | some w => w | none => "")
  | none, some w => w
  | none, none => ""

/-- A string is recovered from its character data. -/
theorem string_mk_data (s : String) : String.mk s.data = s := rfl

/-- A bearer header value is never the empty string. -/
theorem bearer_append_ne_empty (t : String) : "Bearer " ++ t ≠ "" := by
  intro h
  have h2 := congrArg String.data h
  rw [String.data_append] at h2
  simp [show ("Bearer " : String).data = ['B', 'e', 'a', 'r', 'e', 'r', ' '] from rfl] at h2

/-- A bearer header value starts with the bearer marker. -/
theorem pyStartsWith_bearer (t : String) :
    pyStartsWith ("Bearer " ++ t) "Bearer " = true := by
  rw [pyStartsWith, String.data_append, List.isPrefixOf_iff_prefix]
  exact List.prefix_append _ _

/-- Slicing a bearer header value past the marker yields the token. -/
theorem pyDropChars_bearer (t : String) : pyDropChars 7 ("Bearer " ++ t) = t := by
  rw [pyDropChars, String.data_append]
  rw [show (7 : Nat) = ("Bearer " : String).data.length from rfl, List.drop_left]

/-!
Base platform handler: `src/handlers/platforms/base.py`.
-/

/-- Straight-line part of `BasePlatformHandler.get_user_from_session`
once the headers map is in hand: bearer token from the `Authorization`
header (exact spellings `Authorization` then `authorization`, `Bearer `
prefix, empty remainder treated as no token), else the `sessionToken`
field of the JSON body with every body exception swallowed, then JWT
verification; `none` for a missing token or failed verification.  This
part of the source cannot raise: the body access sits in a
`try/except: pass` and `verify_token` catches every failure. -/
def get_user_from_session_core (parseJson : String → Option PyVal)
    (verify : String → Option String)
    (hkvs : List (String × String)) (body : Option PyVal) : Option String :=
  let authHeader := headerOrChain (smGet hkvs "Authorization") (smGet hkvs "authorization")
  let headerTok : String :=
    if authHeader ≠ "" ∧ pyStartsWith authHeader "Bearer " = true then
      pyDropChars 7 authHeader
    else ""
  if headerTok ≠ "" then verify headerTok
  else
    let parsed : Option PyVal :=
      match body.getD (.str "\x7b\x7d") with
      | .str s => parseJson s
      | v => some v
    let sessionTok : PyVal :=
      match parsed with
      | some (.dict bkvs) => dGet bkvs "sessionToken"
      | _ => .null
    if pyTruthy sessionTok then
      match sessionTok with
      | .str s => verify s
      | _ => none
    else none

/-- Embedding of `BasePlatformHandler.get_user_from_session`: the only
raising point is `event.get('headers', {}).get(...)` when the `headers`
field holds JSON null — that attribute access sits outside the
`try/except`. -/
def get_user_from_session (parseJson : String → Option PyVal)
    (verify : String → Option String) (ev : Event) : Except PyErr (Option String) :=
  match ev.headers.getD (.dict []) with
  | .null => .error .attributeError
  | .dict hkvs => .ok (get_user_from_session_core parseJson verify hkvs ev.body)

/-- C10 counterexample: an event whose `headers` field is present but
null makes `get_user_from_session` raise an `AttributeError` instead of
returning a value — the claimed totality over headers present or absent
in any combination fails at this input. -/
theorem c10_headers_null_raises :
    get_user_from_session (fun _ => none) (fun _ => none)
        { headers := some .null, body := none, queryStringParameters := none }
      = .error .attributeError := rfl

/-- C10 (amended): `get_user_from_session` is total whenever the
`headers` field is absent or an actual header map — for every such event,
with any body (absent, null, a non-JSON string, or any parsed value), it
returns a user id or no value and never raises; a malformed JSON body is
treated the same as an absent session token.  Only a null `headers` field
raises. -/
theorem c10_total_unless_null_headers (parseJson : String → Option PyVal)
    (verify : String → Option String) (hkvs : Option (List (String × String)))
    (body : Option PyVal) (qsp : Option StrMapVal) :
    ∃ o, get_user_from_session parseJson verify
        { headers := hkvs.map .dict, body := body, queryStringParameters := qsp }
      = .ok o := by
  cases hkvs with
  | none => exact ⟨get_user_from_session_core parseJson verify [] body, rfl⟩
  | some kvs => exact ⟨get_user_from_session_core parseJson verify kvs body, rfl⟩

/-- C7 counterexample: a header spelled `AUTHORIZATION` — equal to
`Authorization` up to character case — carrying a valid bearer token is
not consulted: the session extraction returns no value even though the
verifier accepts the token, so the header name is not matched
case-insensitively. -/
theorem c7_uppercase_header_not_matched :
    ("AUTHORIZATION" : String).data.map Char.toLower
        = ("Authorization" : String).data.map Char.toLower
      ∧ (fun s => if s = "tok" then some "u1" else none) "tok" = some "u1"
      ∧ get_user_from_session (fun _ => none)
          (fun s => if s = "tok" then some "u1" else none)
          { headers := some (.dict [("AUTHORIZATION", "Bearer tok")]), body := none,
            queryStringParameters := none }
        = .ok none := by
  refine ⟨by decide, by decide, rfl⟩

/-- C7 (amended): the session extraction matches the header name against
the two exact spellings `Authorization` and `authorization` only (not
case-insensitively), requires the `Bearer ` prefix with a nonempty
remainder, falls back to the `sessionToken` field of the JSON body when
no header token is present, and returns the verification outcome — a
user id, or no value (not an error) when no token is present or
verification fails. -/
theorem c7_session_extraction (parseJson : String → Option PyVal)
    (verify : String → Option String) :
    (∀ hkvs body t, smGet hkvs "Authorization" = some ("Bearer " ++ t) → t ≠ "" →
        get_user_from_session parseJson verify
          { headers := some (.dict hkvs), body := body, queryStringParameters := none }
          = .ok (verify t))
    ∧ (∀ hkvs body t,
        (smGet hkvs "Authorization" = none ∨ smGet hkvs "Authorization" = some "") →
        smGet hkvs "authorization" = some ("Bearer " ++ t) → t ≠ "" →
        get_user_from_session parseJson verify
          { headers := some (.dict hkvs), body := body, queryStringParameters := none }
          = .ok (verify t))
    ∧ (∀ s bkvs tok, parseJson s = some (.dict bkvs) →
        dGet bkvs "sessionToken" = .str tok → tok ≠ "" →
        get_user_from_session parseJson verify
          { headers := some (.dict []), body := some (.str s),
            queryStringParameters := none }
          = .ok (verify tok))
    ∧ (parseJson "\x7b\x7d" = some (.dict []) →
        get_user_from_session parseJson verify
          { headers := none, body := none, queryStringParameters := none }
          = .ok none) := by
  have hcore : ∀ hkvs body t,
      headerOrChain (smGet hkvs "Authorization") (smGet hkvs "authorization")
          = "Bearer " ++ t → t ≠ "" →
      get_user_from_session_core parseJson verify hkvs body = verify t := by
    intro hkvs body t hchain ht
    rw [get_user_from_session_core]
    simp only [hchain, pyStartsWith_bearer, bearer_append_ne_empty t, pyDropChars_bearer,
      ne_eq, not_false_iff, and_self, if_true, if_pos ht]
  refine ⟨?_, ?_, ?_, ?_⟩
  · intro hkvs body t hA ht
    rw [get_user_from_session]
    simp only [Option.getD_some]
    rw [hcore hkvs body t (by
      simp only [hA, headerOrChain]
      exact if_pos (bearer_append_ne_empty t)) ht]
  · intro hkvs body t hAcap hA ht
    rw [get_user_from_session]
    simp only [Option.getD_some]
    refine congrArg Except.ok (hcore hkvs body t ?_ ht)
    rcases hAcap with hAcap | hAcap
    · rw [headerOrChain.eq_def, hAcap, hA]
    · rw [headerOrChain.eq_def, hAcap, hA]
      simp
  · intro s bkvs tok hparse htok hne
    rw [get_user_from_session]
    simp only [Option.getD_some]
    rw [get_user_from_session_core]
    simp only [smGet, List.find?_nil, Option.map_none, headerOrChain,
      Option.getD_some, hparse, htok]
    rw [if_neg (by simp)]
    simp [pyTruthy, hne]
  · intro hparse
    rw [get_user_from_session]
    simp only [Option.getD_none]
    rw [get_user_from_session_core]
    simp [smGet, headerOrChain, hparse, pyTruthy, dGet]

/-- C7 witness: the amended extraction theorem at concrete inputs — an
exact `Authorization` bearer header, a lowercase `authorization` header,
a body `sessionToken`, and a tokenless event. -/
theorem c7_session_extraction_witness :
    (get_user_from_session (fun _ => none) (fun s => some s)
        { headers := some (.dict [("Authorization", "Bearer t1")]), body := none,
          queryStringParameters := none } = .ok (some "t1"))
    ∧ (get_user_from_session (fun _ => none) (fun s => some s)
        { headers := some (.dict [("authorization", "Bearer t2")]), body := none,
          queryStringParameters := none } = .ok (some "t2"))
    ∧ (get_user_from_session (fun _ => some (.dict [("sessionToken", .str "t3")]))
        (fun s => some s)
        { headers := some (.dict []), body := some (.str "\x7b\"sessionToken\": \"t3\"\x7d"),
          queryStringParameters := none } = .ok (some "t3"))
    ∧ (get_user_from_session (fun _ => some (.dict [])) (fun s => some s)
        { headers := none, body := none, queryStringParameters := none } = .ok none) := by
  have h1 := (c7_session_extraction (fun _ => none) (fun s => some s)).1
    [("Authorization", "Bearer t1")] none "t1" (by decide) (by decide)
  have h2 := (c7_session_extraction (fun _ => none) (fun s => some s)).2.1
    [("authorization", "Bearer t2")] none "t2" (.inl (by decide)) (by decide) (by decide)
  have h3 := (c7_session_extraction (fun _ => some (.dict [("sessionToken", .str "t3")]))
      (fun s => some s)).2.2.1
    "\x7b\"sessionToken\": \"t3\"\x7d" [("sessionToken", .str "t3")] "t3" rfl rfl (by decide)
  have h4 := (c7_session_extraction (fun _ => some (.dict [])) (fun s => some s)).2.2.2 rfl
  exact ⟨h1, h2, h3, h4⟩

/-!
User management handlers: `src/handlers/user.py`.
-/

/-- Value of key `k` in an item, modelling `d.get(k, default)`. -/
def dGetD (kvs : Item) (k : String) (d : PyVal) : PyVal :=
  match kvs.find? (fun p => p.1 == k) with
  | some p => p.2
  | none => d

/-- Python `s.replace(old, new)` on character data, scanning left to
right; the fuel argument (instantiated with the length of the text, which
each step consumes at least one character of) keeps the recursion
structural. -/
def pyReplaceAux (old new : List Char) : Nat → List Char → List Char
  | 0, s => s
  | _ + 1, [] => []
  | fuel + 1, c :: rest =>
      if old ≠ [] ∧ old.isPrefixOf (c :: rest) then
        new ++ pyReplaceAux old new fuel ((c :: rest).drop old.length)
      else c :: pyReplaceAux old new fuel rest

/-- Python `s.replace(old, new)`: every occurrence of `old` replaced. -/
def pyReplace (s old new : String) : String :=
  String.mk (pyReplaceAux old.data new.data s.data.length s.data)

/-- Embedding of the `get_user_from_session` helper in
`src/handlers/user.py` (distinct from the platform handler version): it
raises `ValueError` instead of returning no value — no or malformed
`Authorization` header gives `No valid authorization header`, failed
verification gives `Invalid session token`. -/
def user_get_user_from_session (verify : String → Option String)
    (ev : Event) : Except PyErr String :=
  match ev.headers.getD (.dict []) with
  | .null => .error .attributeError
  | .dict hkvs =>
      let authHeader := headerOrChain (smGet hkvs "Authorization") (smGet hkvs "authorization")
      if authHeader = "" ∨ pyStartsWith authHeader "Bearer " = false then
        .error (.valueError "No valid authorization header")
      else
        match verify (pyDropChars 7 authHeader) with
        | some uid =>
            if uid = "" then .error (.valueError "Invalid session token") else .ok uid
        | none => .error (.valueError "Invalid session token")

/-- Embedding of `profile_handler`: session check, point lookup of the
`PROFILE` record, 404 when absent (or falsy), otherwise the record with
its `sk` attribute popped, in a success envelope; `ValueError` is mapped
to 401 and any other exception to 500. -/
def profile_handler (verify : String → Option String) (db : DB) (ev : Event) :
    ApiResponse :=
  match user_get_user_from_session verify ev with
  | .error (.valueError m) => error_response m 401
  | .error e => error_response (pyErrStr e) 500
  | .ok uid =>
      match get_item db uid "PROFILE" with
      | none => error_response "User not found" 404
      | some item =>
          if item.isEmpty then error_response "User not found" 404
          else success_response (.dict (dPop item "sk")) 200

/-- One entry of the `platforms_handler` response: the loop body builds a
dict of exactly `platform`, `platformUserId`, `connected`, `connectedAt`
and `scope`; indexing `item['sk']` raises on a record without a string
sort key. -/
def formatPlatformItem (item : Item) : Except PyErr PyVal :=
  match dLookup item "sk" with
  | some (.str skv) =>
      .ok (.dict [("platform", .str (pyReplace skv "platform#" "")),
                  ("platformUserId", dGetD item "platformUserId" (.str "")),
                  ("connected", .bool true),
                  ("connectedAt", dGetD item "connectedAt" (.str "")),
                  ("scope", dGetD item "scope" (.str ""))])
  | some _ => .error .attributeError
  | none => .error (.keyError "sk")

/-- Embedding of `platforms_handler`: session check, sort-key-prefix
query for `platform#` records, and the formatting loop; tokens are never
copied into the response entries. -/
def platforms_handler (verify : String → Option String) (db : DB) (ev : Event) :
    ApiResponse :=
  match user_get_user_from_session verify ev with
  | .error (.valueError m) => error_response m 401
  | .error e => error_response (pyErrStr e) 500
  | .ok uid =>
      match (queryByPrefix db uid "platform#").mapM formatPlatformItem with
      | .ok lst => success_response (.dict [("platforms", .list lst)]) 200
      | .error (.valueError m) => error_response m 401
      | .error e => error_response (pyErrStr e) 500

/-- A bearer `Authorization` header makes the user.py session helper
return the verification outcome. -/
theorem user_session_ok (verify : String → Option String)
    (hkvs : List (String × String)) (body : Option PyVal) (qsp : Option StrMapVal)
    (t uid : String) (hA : smGet hkvs "Authorization" = some ("Bearer " ++ t))
    (hv : verify t = some uid) (hu : uid ≠ "") :
    user_get_user_from_session verify
        { headers := some (.dict hkvs), body := body, queryStringParameters := qsp }
      = .ok uid := by
  rw [user_get_user_from_session]
  simp only [Option.getD_some]
  have hchain : headerOrChain (smGet hkvs "Authorization") (smGet hkvs "authorization")
      = "Bearer " ++ t := by
    simp only [hA, headerOrChain]
    exact if_pos (bearer_append_ne_empty t)
  rw [hchain, if_neg (by
    push_neg
    exact ⟨bearer_append_ne_empty t, by rw [pyStartsWith_bearer]; simp⟩)]
  rw [pyDropChars_bearer, hv]
  simp [hu]

/-- C2: for every request to the profile operation carrying a valid
session token, if no profile record exists for the session user id the
operation returns 404 with error message `User not found`; if the record
exists it returns a success response containing the record with the
sort-key attribute stripped. -/
theorem c2_profile_handler (verify : String → Option String) (db : DB)
    (hkvs : List (String × String)) (body : Option PyVal) (qsp : Option StrMapVal)
    (t uid : String) (hA : smGet hkvs "Authorization" = some ("Bearer " ++ t))
    (hv : verify t = some uid) (hu : uid ≠ "") :
    (get_item db uid "PROFILE" = none →
      profile_handler verify db
          { headers := some (.dict hkvs), body := body, queryStringParameters := qsp }
        = error_response "User not found" 404)
    ∧ (∀ item, get_item db uid "PROFILE" = some item → item ≠ [] →
      profile_handler verify db
          { headers := some (.dict hkvs), body := body, queryStringParameters := qsp }
        = success_response (.dict (dPop item "sk")) 200) := by
  have hsess := user_session_ok verify hkvs body qsp t uid hA hv hu
  constructor
  · intro habsent
    simp only [profile_handler, hsess, habsent]
  · intro item hitem hne
    simp only [profile_handler, hsess, hitem]
    rw [if_neg (by simpa [List.isEmpty_iff] using hne)]

/-- C2 witness: the profile theorem at a concrete store holding one
profile record, once against a store without the record (404) and once
with it (success with `sk` stripped). -/
theorem c2_profile_handler_witness :
    profile_handler (fun s => if s = "tk" then some "u1" else none) []
        { headers := some (.dict [("Authorization", "Bearer tk")]), body := none,
          queryStringParameters := none }
      = error_response "User not found" 404
    ∧ profile_handler (fun s => if s = "tk" then some "u1" else none)
        [[("userId", .str "u1"), ("sk", .str "PROFILE"), ("email", .str "e@x")]]
        { headers := some (.dict [("Authorization", "Bearer tk")]), body := none,
          queryStringParameters := none }
      = success_response (.dict [("userId", .str "u1"), ("email", .str "e@x")]) 200 := by
  constructor
  · exact (c2_profile_handler (fun s => if s = "tk" then some "u1" else none) []
      [("Authorization", "Bearer tk")] none none "tk" "u1" (by decide) (by decide)
      (by decide)).1 rfl
  · have h := (c2_profile_handler (fun s => if s = "tk" then some "u1" else none)
      [[("userId", .str "u1"), ("sk", .str "PROFILE"), ("email", .str "e@x")]]
      [("Authorization", "Bearer tk")] none none "tk" "u1" (by decide) (by decide)
      (by decide)).2
      [("userId", .str "u1"), ("sk", .str "PROFILE"), ("email", .str "e@x")] rfl (by simp)
    exact h

/-- Records returned by the `platform#` prefix query carry a string sort
key starting with the queried text. -/
theorem queryByPrefix_sk (db : DB) (uid skPre : String) :
    ∀ it ∈ queryByPrefix db uid skPre, ∃ s, dLookup it "sk" = some (.str s) := by
  intro it hit
  have hp := (List.mem_filter.mp hit).2
  rcases h1 : dLookup it "userId" with _ | v1
  · rw [h1] at hp
    simp at hp
  · rw [h1] at hp
    cases v1 <;> try (simp at hp)
    rcases h2 : dLookup it "sk" with _ | v2
    · rw [h2] at hp
      simp at hp
    · rw [h2] at hp
      cases v2 <;> try (simp at hp)
      exact ⟨_, rfl⟩

/-- The formatting loop succeeds on records with a string sort key, and
every produced entry is a dict with exactly the five public fields and no
token attributes. -/
theorem mapM_formatPlatformItem_ok :
    ∀ items : List Item, (∀ it ∈ items, ∃ s, dLookup it "sk" = some (.str s)) →
      ∃ lst, items.mapM formatPlatformItem = .ok lst
        ∧ ∀ v ∈ lst, ∃ kvs, v = PyVal.dict kvs
            ∧ dKeys kvs = ["platform", "platformUserId", "connected", "connectedAt", "scope"]
            ∧ dLookup kvs "accessToken" = none
            ∧ dLookup kvs "refreshToken" = none
  | [], _ => ⟨[], rfl, by simp⟩
  | it :: rest, h => by
      obtain ⟨s, hs⟩ := h it (by simp)
      obtain ⟨lst, hlst, hprop⟩ :=
        mapM_formatPlatformItem_ok rest (fun x hx => h x (by simp [hx]))
      have hfmt : formatPlatformItem it
          = .ok (.dict [("platform", .str (pyReplace s "platform#" "")),
                        ("platformUserId", dGetD it "platformUserId" (.str "")),
                        ("connected", .bool true),
                        ("connectedAt", dGetD it "connectedAt" (.str "")),
                        ("scope", dGetD it "scope" (.str ""))]) := by
        rw [formatPlatformItem, hs]
      refine ⟨(.dict [("platform", .str (pyReplace s "platform#" "")),
                      ("platformUserId", dGetD it "platformUserId" (.str "")),
                      ("connected", .bool true),
                      ("connectedAt", dGetD it "connectedAt" (.str "")),
                      ("scope", dGetD it "scope" (.str ""))]) :: lst, ?_, ?_⟩
      · rw [List.mapM_cons, hfmt, hlst]
        rfl
      · intro v hv
        rcases List.mem_cons.mp hv with hv | hv
        · exact ⟨_, hv, rfl, rfl, rfl⟩
        · exact hprop v hv

/-- C8: for every set of stored platform connection records, whatever
their field values, each entry of the platforms listing response is a
dict with exactly the fields `platform`, `platformUserId`, `connected`,
`connectedAt` and `scope`, and never an `accessToken` or `refreshToken`
field. -/
theorem c8_platforms_listing_fields (verify : String → Option String) (db : DB)
    (hkvs : List (String × String)) (body : Option PyVal) (qsp : Option StrMapVal)
    (t uid : String) (hA : smGet hkvs "Authorization" = some ("Bearer " ++ t))
    (hv : verify t = some uid) (hu : uid ≠ "") :
    ∃ lst, (queryByPrefix db uid "platform#").mapM formatPlatformItem = .ok lst
      ∧ platforms_handler verify db
          { headers := some (.dict hkvs), body := body, queryStringParameters := qsp }
        = success_response (.dict [("platforms", .list lst)]) 200
      ∧ ∀ v ∈ lst, ∃ kvs, v = PyVal.dict kvs
          ∧ dKeys kvs = ["platform", "platformUserId", "connected", "connectedAt", "scope"]
          ∧ dLookup kvs "accessToken" = none
          ∧ dLookup kvs "refreshToken" = none := by
  have hsess := user_session_ok verify hkvs body qsp t uid hA hv hu
  obtain ⟨lst, hlst, hprop⟩ := mapM_formatPlatformItem_ok
    (queryByPrefix db uid "platform#") (queryByPrefix_sk db uid "platform#")
  refine ⟨lst, hlst, ?_, hprop⟩
  simp only [platforms_handler, hsess, hlst]

/-- C8 witness: the field-shape theorem at a store holding one Spotify
connection record with encrypted token attributes present. -/
theorem c8_platforms_listing_witness :
    platforms_handler (fun s => if s = "tk" then some "u1" else none)
        [[("userId", .str "u1"), ("sk", .str "platform#spotify"),
          ("platformUserId", .str "sp1"), ("accessToken", .str "ENCA"),
          ("refreshToken", .str "ENCR"), ("connectedAt", .str "ts"),
          ("scope", .str "sc")]]
        { headers := some (.dict [("Authorization", "Bearer tk")]), body := none,
          queryStringParameters := none }
      = success_response (.dict [("platforms", .list
          [.dict [("platform", .str "spotify"), ("platformUserId", .str "sp1"),
                  ("connected", .bool true), ("connectedAt", .str "ts"),
                  ("scope", .str "sc")]])]) 200 := by
  obtain ⟨lst, hlst, hresp, hprop⟩ := c8_platforms_listing_fields
    (fun s => if s = "tk" then some "u1" else none)
    [[("userId", .str "u1"), ("sk", .str "platform#spotify"),
      ("platformUserId", .str "sp1"), ("accessToken", .str "ENCA"),
      ("refreshToken", .str "ENCR"), ("connectedAt", .str "ts"),
      ("scope", .str "sc")]]
    [("Authorization", "Bearer tk")] none none "tk" "u1" (by decide) (by decide) (by decide)
  have hval : ((queryByPrefix
      [[("userId", .str "u1"), ("sk", .str "platform#spotify"),
        ("platformUserId", .str "sp1"), ("accessToken", .str "ENCA"),
        ("refreshToken", .str "ENCR"), ("connectedAt", .str "ts"),
        ("scope", .str "sc")]] "u1" "platform#").mapM formatPlatformItem)
      = Except.ok [PyVal.dict [("platform", .str "spotify"), ("platformUserId", .str "sp1"),
                ("connected", .bool true), ("connectedAt", .str "ts"),
                ("scope", .str "sc")]] := rfl
  rw [hval] at hlst
  rw [hresp, ← Except.ok.inj hlst]

/-!
Platform OAuth handlers: `src/handlers/platforms/spotify.py`,
`soundcloud.py` and `youtube.py`.

The outbound HTTP exchanges (`exchange_code_for_token`,
`refresh_access_token`, the identity endpoints) are external calls; they
enter as function parameters returning either the provider response or a
raised error.  The provider JSON responses are modelled by the record
types below; required fields the source indexes with `[...]` are
`Option`-valued where the provider may omit them, so the `KeyError` path
stays visible.
-/

/-- Fields of a provider token-endpoint JSON response that the handlers
read: `access_token` (always indexed directly right after a successful
exchange), and the optional `refresh_token`, `expires_in` and `scope`. -/
structure OAuthTokenResp where
  access_token : String
  refresh_token : Option String
  expires_in : Option Int
  scope : Option String

/-- Fields of the SoundCloud `/me` response that the callback reads; `id`
carries the already-stringified `str(info['id'])`. -/
structure ScUser where
  id : String
  username : Option String
  permalink : Option String
  avatar_url : Option String

/-- The token-encryption dependencies a platform handler holds: the
Fernet primitives and the string codec. -/
structure CryptoEnv where
  fc : FernetCipher
  strEncode : String → List Nat
  strDecode : List Nat → Option String

/-- Python truthiness of an optional string (`None` and the empty string
are falsy). -/
def optTruthy : Option String → Bool
  | some s => s != ""
  | none => false

/-- Split at the first separator: text before it and text after it, or
`none` when the separator does not occur. -/
def splitOnceC (sep : Char) : List Char → Option (List Char × List Char)
  | [] => none
  | c :: rest =>
      if c = sep then some ([], rest)
      else (splitOnceC sep rest).map (fun pr => (c :: pr.1, pr.2))

/-- Python `s.split(sep, maxsplit)` on character data: at most `maxsplit`
splits, any remaining separators stay inside the final segment. -/
def pySplitMax (sep : Char) : Nat → List Char → List (List Char)
  | 0, cs => [cs]
  | n + 1, cs =>
      match splitOnceC sep cs with
      | none => [cs]
      | some (a, b) => a :: pySplitMax sep n b

/-- The platform connection record written by
`BasePlatformHandler.store_platform_tokens`: both tokens encrypted (the
refresh token even when it is the empty string), the raw `expiresIn`
seconds, and the shared isoformat timestamp in `expiresAt` and
`connectedAt`. -/
def storedPlatformItem (env : CryptoEnv) (tsA ivA tsR ivR : List Nat)
    (platformName uid pid accessTok refreshTok : String) (expiresIn : Int)
    (scope timestamp : String) : Item :=
  [("userId", .str uid),
   ("sk", .str ("platform#" ++ platformName)),
   ("platformUserId", .str pid),
   ("accessToken", .str (encrypt_token env.fc tsA ivA env.strEncode accessTok)),
   ("refreshToken", .str (encrypt_token env.fc tsR ivR env.strEncode refreshTok)),
   ("expiresAt", .str timestamp),
   ("expiresIn", .int expiresIn),
   ("scope", .str scope),
   ("connectedAt", .str timestamp)]

/-- Embedding of `BasePlatformHandler.store_platform_tokens`: encrypt
both tokens and upsert the platform connection record. -/
def store_platform_tokens (env : CryptoEnv) (tsA ivA tsR ivR : List Nat)
    (platformName : String) (db : DB) (uid pid accessTok refreshTok : String)
    (expiresIn : Int) (scope timestamp : String) : DB :=
  put_item db (storedPlatformItem env tsA ivA tsR ivR platformName uid pid
    accessTok refreshTok expiresIn scope timestamp)

/-- Embedding of `BasePlatformHandler.update_access_token`: re-encrypt
and merge only the access-token and expiry attributes. -/
def update_access_token (env : CryptoEnv) (ts iv : List Nat)
    (platformName : String) (db : DB) (uid accessTok : String)
    (expiresIn : Int) (timestamp : String) : DB :=
  update_item db uid ("platform#" ++ platformName)
    [("accessToken", .str (encrypt_token env.fc ts iv env.strEncode accessTok)),
     ("expiresAt", .str timestamp),
     ("expiresIn", .int expiresIn)]

/-- Embedding of the Spotify `callback_handler`: provider error and
missing code/state redirects, then `user_id, _ = state.split(':', 1)`
(rejecting only a state with no colon at all), then code exchange,
profile fetch and token storage; every exception after parsing collapses
to the `connection_failed` redirect.  The result pairs the response with
the store as left by the handler. -/
def spotify_callback (exchangeFn : String → Except PyErr OAuthTokenResp)
    (userinfoFn : String → Except PyErr String) (env : CryptoEnv)
    (tsA ivA tsR ivR : List Nat) (timestamp frontendUrl : String)
    (db : DB) (ev : Event) : ApiResponse × DB :=
  match ev.queryStringParameters.getD (.dict []) with
  | .null => (redirect_response (frontendUrl ++ "/dashboard?error=connection_failed") 302, db)
  | .dict qp =>
      let code := smGet qp "code"
      let state := smGet qp "state"
      let errorParam := smGet qp "error"
      if optTruthy errorParam then
        (redirect_response (frontendUrl ++ "/dashboard?error=" ++ errorParam.getD "") 302, db)
      else if !optTruthy code || !optTruthy state then
        (redirect_response (frontendUrl ++ "/dashboard?error=invalid_callback") 302, db)
      else
        match pySplitMax ':' 1 (state.getD "").data with
        | [userData, _] =>
            (match exchangeFn (code.getD "") with
            | .error _ =>
                (redirect_response (frontendUrl ++ "/dashboard?error=connection_failed") 302, db)
            | .ok tokenData =>
                match userinfoFn tokenData.access_token with
                | .error _ =>
                    (redirect_response (frontendUrl ++ "/dashboard?error=connection_failed") 302, db)
                | .ok spotifyUserId =>
                    match tokenData.refresh_token, tokenData.expires_in with
                    | some rt, some ei =>
                        (redirect_response (frontendUrl ++ "/dashboard?spotify=connected") 302,
                         store_platform_tokens env tsA ivA tsR ivR "spotify" db
                           (String.mk userData) spotifyUserId tokenData.access_token rt ei
                           (tokenData.scope.getD "") timestamp)
                    | _, _ =>
                        (redirect_response (frontendUrl ++ "/dashboard?error=connection_failed") 302, db))
        | _ => (redirect_response (frontendUrl ++ "/dashboard?error=invalid_state") 302, db)

/-- Embedding of the SoundCloud PKCE `callback_handler`:
`parts = state.split(':', 2)` with a `len(parts) != 3` check (so a state
with extra colons folds them into the code verifier and passes), then
PKCE code exchange, `/me` fetch, token storage with
`refresh_token` defaulted to the empty string, and a display-fields
update. -/
def soundcloud_callback (exchangeFn : String → String → Except PyErr OAuthTokenResp)
    (userinfoFn : String → Except PyErr ScUser) (env : CryptoEnv)
    (tsA ivA tsR ivR : List Nat) (timestamp frontendUrl : String)
    (db : DB) (ev : Event) : ApiResponse × DB :=
  match ev.queryStringParameters.getD (.dict []) with
  | .null =>
      (redirect_response (frontendUrl ++ "/dashboard?error=soundcloud_connection_failed") 302, db)
  | .dict qp =>
      let code := smGet qp "code"
      let state := smGet qp "state"
      let errorParam := smGet qp "error"
      if optTruthy errorParam then
        (redirect_response
          (frontendUrl ++ "/dashboard?error=soundcloud_" ++ errorParam.getD "") 302, db)
      else if !optTruthy code || !optTruthy state then
        (redirect_response (frontendUrl ++ "/dashboard?error=soundcloud_invalid_callback") 302, db)
      else
        match pySplitMax ':' 2 (state.getD "").data with
        | [userData, _, verifierData] =>
            (match exchangeFn (code.getD "") (String.mk verifierData) with
            | .error _ =>
                (redirect_response
                  (frontendUrl ++ "/dashboard?error=soundcloud_connection_failed") 302, db)
            | .ok tokenData =>
                match userinfoFn tokenData.access_token with
                | .error _ =>
                    (redirect_response
                      (frontendUrl ++ "/dashboard?error=soundcloud_connection_failed") 302, db)
                | .ok scUser =>
                    (redirect_response (frontendUrl ++ "/dashboard?soundcloud=connected") 302,
                     update_item
                       (store_platform_tokens env tsA ivA tsR ivR "soundcloud" db
                         (String.mk userData) scUser.id tokenData.access_token
                         (tokenData.refresh_token.getD "") (tokenData.expires_in.getD 31536000)
                         (tokenData.scope.getD "non-expiring") timestamp)
                       (String.mk userData) "platform#soundcloud"
                       [("username", .str (scUser.username.getD "Unknown User")),
                        ("permalink", .str (scUser.permalink.getD "")),
                        ("avatarUrl", .str (scUser.avatar_url.getD ""))]))
        | _ =>
            (redirect_response (frontendUrl ++ "/dashboard?error=soundcloud_invalid_state") 302, db)

/-- Code of the YouTube `refresh_handler` after the stored refresh token
has been decrypted: Google token refresh, then access-token update and
the success envelope. -/
def youtube_refresh_after (refreshFn : String → Except PyErr OAuthTokenResp)
    (env : CryptoEnv) (ts iv : List Nat) (timestamp : String) (db : DB)
    (uid refreshTok : String) : ApiResponse × DB :=
  match refreshFn refreshTok with
  | .error e => (error_response (pyErrStr e) 500, db)
  | .ok newTok =>
      match newTok.expires_in with
      | none => (error_response (pyErrStr (.keyError "expires_in")) 500, db)
      | some ei =>
          (success_response (.dict [("accessToken", .str newTok.access_token),
                                    ("expiresIn", .int ei)]) 200,
           update_access_token env ts iv "youtube" db uid newTok.access_token ei timestamp)

/-- Embedding of the YouTube `refresh_handler`: session check, stored
record lookup (404 when absent), the
`No refresh token available - please reconnect YouTube Music` 400 branch
when the stored `refreshToken` attribute is falsy, then decryption and
`youtube_refresh_after`. -/
def youtube_refresh (parseJson : String → Option PyVal)
    (verify : String → Option String) (refreshFn : String → Except PyErr OAuthTokenResp)
    (env : CryptoEnv) (ts iv : List Nat) (timestamp : String)
    (db : DB) (ev : Event) : ApiResponse × DB :=
  match get_user_from_session parseJson verify ev with
  | .error e => (error_response (pyErrStr e) 500, db)
  | .ok none => (error_response "Authentication required" 401, db)
  | .ok (some uid) =>
      if uid = "" then (error_response "Authentication required" 401, db)
      else
      match get_item db uid "platform#youtube" with
      | none => (error_response "YouTube Music not connected" 404, db)
      | some tokenData =>
          if tokenData.isEmpty then (error_response "YouTube Music not connected" 404, db)
          else
            let encRefresh := dGet tokenData "refreshToken"
            if pyTruthy encRefresh = false then
              (error_response "No refresh token available - please reconnect YouTube Music" 400, db)
            else
              match encRefresh with
              | .str encStr =>
                  match decrypt_token env.fc env.strDecode encStr with
                  | none => (error_response (pyErrStr .invalidToken) 500, db)
                  | some refreshTok =>
                      youtube_refresh_after refreshFn env ts iv timestamp db uid refreshTok
              | _ => (error_response (pyErrStr .attributeError) 500, db)

/-- Code of the SoundCloud `refresh_handler` after the stored refresh
token has been decrypted: provider refresh, a one-time-use refresh-token
rotation when the response carries a new `refresh_token`, and the
success envelope. -/
def soundcloud_refresh_after (refreshFn : String → Except PyErr OAuthTokenResp)
    (env : CryptoEnv) (ts iv tsR ivR : List Nat) (db : DB)
    (uid refreshTok : String) : ApiResponse × DB :=
  match refreshFn refreshTok with
  | .error e => (error_response (pyErrStr e) 500, db)
  | .ok newTok =>
      let updates0 : Item :=
        [("accessToken", .str (encrypt_token env.fc ts iv env.strEncode newTok.access_token)),
         ("expiresIn", .int (newTok.expires_in.getD 31536000))]
      let updates : Item :=
        match newTok.refresh_token with
        | some nrt =>
            updates0 ++ [("refreshToken", .str (encrypt_token env.fc tsR ivR env.strEncode nrt))]
        | none => updates0
      (success_response (.dict [("accessToken", .str newTok.access_token),
                                ("expiresIn", .int (newTok.expires_in.getD 31536000))]) 200,
       update_item db uid "platform#soundcloud" updates)

/-- Embedding of the SoundCloud `refresh_handler`: session check, stored
record lookup (404), the no-refresh-token fallback branch (return the
decrypted current access token, or 400 when even that is absent), and
otherwise decryption and `soundcloud_refresh_after`. -/
def soundcloud_refresh (parseJson : String → Option PyVal)
    (verify : String → Option String) (refreshFn : String → Except PyErr OAuthTokenResp)
    (env : CryptoEnv) (ts iv tsR ivR : List Nat)
    (db : DB) (ev : Event) : ApiResponse × DB :=
  match get_user_from_session parseJson verify ev with
  | .error e => (error_response (pyErrStr e) 500, db)
  | .ok none => (error_response "Authentication required" 401, db)
  | .ok (some uid) =>
      if uid = "" then (error_response "Authentication required" 401, db)
      else
      match get_item db uid "platform#soundcloud" with
      | none => (error_response "SoundCloud not connected" 404, db)
      | some tokenData =>
          if tokenData.isEmpty then (error_response "SoundCloud not connected" 404, db)
          else
            let encRefresh := dGet tokenData "refreshToken"
            if pyTruthy encRefresh = false then
              let encAccess := dGet tokenData "accessToken"
              if pyTruthy encAccess then
                match encAccess with
                | .str ea =>
                    match decrypt_token env.fc env.strDecode ea with
                    | none => (error_response (pyErrStr .invalidToken) 500, db)
                    | some accessTok =>
                        (success_response (.dict [("accessToken", .str accessTok),
                          ("expiresIn", dGetD tokenData "expiresIn" (.int 31536000))]) 200, db)
                | _ => (error_response (pyErrStr .attributeError) 500, db)
              else
                (error_response "No access token available - please reconnect SoundCloud" 400, db)
            else
              match encRefresh with
              | .str er =>
                  match decrypt_token env.fc env.strDecode er with
                  | none => (error_response (pyErrStr .invalidToken) 500, db)
                  | some rt => soundcloud_refresh_after refreshFn env ts iv tsR ivR db uid rt
              | _ => (error_response (pyErrStr .attributeError) 500, db)

/-- Without the separator, the single-split helper finds nothing. -/
theorem splitOnceC_eq_none (sep : Char) : ∀ cs : List Char, sep ∉ cs →
    splitOnceC sep cs = none
  | [], _ => rfl
  | c :: rest, h => by
      rw [splitOnceC,
        if_neg (fun hceq => h (by rw [← hceq]; exact List.mem_cons_self c rest)),
        splitOnceC_eq_none sep rest (fun hm => h (List.mem_cons_of_mem c hm))]
      rfl

/-- A successful single split decomposes the text at its first
separator. -/
theorem splitOnceC_spec (sep : Char) : ∀ cs a b, splitOnceC sep cs = some (a, b) →
    cs = a ++ sep :: b ∧ sep ∉ a := by
  intro cs
  induction cs with
  | nil => intro a b h; simp [splitOnceC] at h
  | cons c rest ih =>
      intro a b h
      rw [splitOnceC] at h
      by_cases hc : c = sep
      · rw [if_pos hc] at h
        have h1 : ([] : List Char) = a := congrArg Prod.fst (Option.some.inj h)
        have h2 : rest = b := congrArg Prod.snd (Option.some.inj h)
        subst h1
        subst h2
        simp [hc]
      · rw [if_neg hc] at h
        cases hsp : splitOnceC sep rest with
        | none => rw [hsp] at h; simp at h
        | some pr =>
            rw [hsp] at h
            have h1 : c :: pr.1 = a := congrArg Prod.fst (Option.some.inj h)
            have h2 : pr.2 = b := congrArg Prod.snd (Option.some.inj h)
            obtain ⟨hcs, hna⟩ := ih pr.1 pr.2 (by rw [hsp])
            subst h2
            rw [← h1, hcs]
            refine ⟨rfl, ?_⟩
            intro hmem
            rcases List.mem_cons.mp hmem with hmem | hmem
            · exact hc hmem.symm
            · exact hna hmem

/-- Separator count across a first-separator decomposition. -/
theorem count_of_split (sep : Char) (a b : List Char) (hna : sep ∉ a) :
    (a ++ sep :: b).count sep = b.count sep + 1 := by
  rw [List.count_append, List.count_cons_self, List.count_eq_zero.mpr hna]
  omega

/-- The bounded split produces at most one segment more than the number
of separators. -/
theorem pySplitMax_length_le (sep : Char) : ∀ (n : Nat) (cs : List Char),
    (pySplitMax sep n cs).length ≤ cs.count sep + 1
  | 0, cs => by simp [pySplitMax]
  | n + 1, cs => by
      rw [pySplitMax]
      cases hsp : splitOnceC sep cs with
      | none => simp
      | some pr =>
          simp only [List.length_cons]
          obtain ⟨hcs, hna⟩ := splitOnceC_spec sep cs pr.1 pr.2 (by rw [hsp])
          have hcount : cs.count sep = pr.2.count sep + 1 := by
            rw [hcs]
            exact count_of_split sep pr.1 pr.2 hna
          have ih := pySplitMax_length_le sep n pr.2
          omega

/-- A text without the separator survives the bounded split whole. -/
theorem pySplitMax_no_sep (sep : Char) (n : Nat) (cs : List Char) (h : sep ∉ cs) :
    pySplitMax sep n cs = [cs] := by
  cases n with
  | zero => rfl
  | succ n => rw [pySplitMax, splitOnceC_eq_none sep cs h]

/-- C5 counterexample: a Spotify callback state of three colon-delimited
segments (one more than the expected two) with a code present is not
rejected — the handler proceeds through the exchange, writes a platform
connection record to the previously empty store, and redirects with
`spotify=connected`; likewise a SoundCloud PKCE state of four segments
(one more than the expected three) is accepted, so the claimed rejection
of states with more segments than expected fails on both flows. -/
theorem c5_extra_segments_accepted :
    ((spotify_callback (fun _ => .ok ⟨"at", some "rt", some 3600, some "sc"⟩)
        (fun _ => .ok "spu")
        ⟨idCipher, fun s => s.data.map Char.toNat, fun _ => none⟩
        (List.replicate 8 0) (List.replicate 16 0) (List.replicate 8 0) (List.replicate 16 0)
        "ts" "http://f" []
        { headers := none, body := none,
          queryStringParameters := some (.dict [("code", "c"), ("state", "a:b:c")]) }).1
      = redirect_response "http://f/dashboard?spotify=connected" 302)
    ∧ ((spotify_callback (fun _ => .ok ⟨"at", some "rt", some 3600, some "sc"⟩)
        (fun _ => .ok "spu")
        ⟨idCipher, fun s => s.data.map Char.toNat, fun _ => none⟩
        (List.replicate 8 0) (List.replicate 16 0) (List.replicate 8 0) (List.replicate 16 0)
        "ts" "http://f" []
        { headers := none, body := none,
          queryStringParameters := some (.dict [("code", "c"), ("state", "a:b:c")]) }).2.length
      = 1)
    ∧ ((soundcloud_callback (fun _ _ => .ok ⟨"at", some "rt", some 3600, some "sc"⟩)
        (fun _ => .ok ⟨"42", some "un", none, none⟩)
        ⟨idCipher, fun s => s.data.map Char.toNat, fun _ => none⟩
        (List.replicate 8 0) (List.replicate 16 0) (List.replicate 8 0) (List.replicate 16 0)
        "ts" "http://f" []
        { headers := none, body := none,
          queryStringParameters := some (.dict [("code", "c"), ("state", "a:b:c:d")]) }).1
      = redirect_response "http://f/dashboard?soundcloud=connected" 302)
    ∧ ((soundcloud_callback (fun _ _ => .ok ⟨"at", some "rt", some 3600, some "sc"⟩)
        (fun _ => .ok ⟨"42", some "un", none, none⟩)
        ⟨idCipher, fun s => s.data.map Char.toNat, fun _ => none⟩
        (List.replicate 8 0) (List.replicate 16 0) (List.replicate 8 0) (List.replicate 16 0)
        "ts" "http://f" []
        { headers := none, body := none,
          queryStringParameters := some (.dict [("code", "c"), ("state", "a:b:c:d")]) }).2.length
      = 1) :=
  ⟨rfl, rfl, rfl, rfl⟩

/-- C5 (amended): an OAuth platform callback invoked with a code present
and a state string with fewer colon-delimited segments than its flow
expects (no colon for Spotify, which unpacks `split(':', 1)`; at most one
colon for SoundCloud PKCE, which checks `len(split(':', 2)) == 3`)
redirects to the frontend with the invalid-state error code of its flow
and performs no store writes.  A state with more segments than expected,
however, is accepted: `maxsplit` folds the extra colons into the final
segment (see the counterexample). -/
theorem c5_fewer_segments_rejected
    (exchangeFn : String → Except PyErr OAuthTokenResp)
    (userinfoFn : String → Except PyErr String)
    (scExchangeFn : String → String → Except PyErr OAuthTokenResp)
    (scUserinfoFn : String → Except PyErr ScUser)
    (env : CryptoEnv) (tsA ivA tsR ivR : List Nat) (timestamp frontendUrl : String)
    (db : DB) (qp : List (String × String)) (codeV stateV : String)
    (hcode : smGet qp "code" = some codeV) (hc : codeV ≠ "")
    (hstate : smGet qp "state" = some stateV) (hs : stateV ≠ "")
    (herr : optTruthy (smGet qp "error") = false) :
    ((':' ∉ stateV.data) →
      spotify_callback exchangeFn userinfoFn env tsA ivA tsR ivR timestamp frontendUrl db
          { headers := none, body := none, queryStringParameters := some (.dict qp) }
        = (redirect_response (frontendUrl ++ "/dashboard?error=invalid_state") 302, db))
    ∧ (stateV.data.count ':' ≤ 1 →
      soundcloud_callback scExchangeFn scUserinfoFn env tsA ivA tsR ivR timestamp frontendUrl db
          { headers := none, body := none, queryStringParameters := some (.dict qp) }
        = (redirect_response (frontendUrl ++ "/dashboard?error=soundcloud_invalid_state") 302,
           db)) := by
  have hocv : optTruthy (some codeV) = true := by simp [optTruthy, hc]
  have hosv : optTruthy (some stateV) = true := by simp [optTruthy, hs]
  constructor
  · intro hnocolon
    rw [spotify_callback]
    simp [hcode, hstate, herr, hocv, hosv,
      pySplitMax_no_sep ':' 1 stateV.data hnocolon]
  · intro hcount
    rw [soundcloud_callback]
    have hlen := pySplitMax_length_le ':' 2 stateV.data
    rcases hsplit : pySplitMax ':' 2 stateV.data with _ | ⟨a, _ | ⟨b, _ | ⟨c, r⟩⟩⟩
    · simp [hcode, hstate, herr, hocv, hosv, hsplit]
    · simp [hcode, hstate, herr, hocv, hosv, hsplit]
    · simp [hcode, hstate, herr, hocv, hosv, hsplit]
    · rw [hsplit] at hlen
      simp only [List.length_cons] at hlen
      omega

/-- C5 witness: the amended rejection theorem at concrete inputs — a
single-segment Spotify state and a two-segment SoundCloud state, both
rejected with the invalid-state redirect and an unchanged store. -/
theorem c5_fewer_segments_rejected_witness :
    spotify_callback (fun _ => .ok ⟨"at", some "rt", some 3600, some "sc"⟩)
        (fun _ => .ok "spu")
        ⟨idCipher, fun s => s.data.map Char.toNat, fun _ => none⟩
        (List.replicate 8 0) (List.replicate 16 0) (List.replicate 8 0) (List.replicate 16 0)
        "ts" "http://f" []
        { headers := none, body := none,
          queryStringParameters := some (.dict [("code", "c"), ("state", "abc")]) }
      = (redirect_response "http://f/dashboard?error=invalid_state" 302, [])
    ∧ soundcloud_callback (fun _ _ => .ok ⟨"at", some "rt", some 3600, some "sc"⟩)
        (fun _ => .ok ⟨"42", some "un", none, none⟩)
        ⟨idCipher, fun s => s.data.map Char.toNat, fun _ => none⟩
        (List.replicate 8 0) (List.replicate 16 0) (List.replicate 8 0) (List.replicate 16 0)
        "ts" "http://f" []
        { headers := none, body := none,
          queryStringParameters := some (.dict [("code", "c"), ("state", "a:b")]) }
      = (redirect_response "http://f/dashboard?error=soundcloud_invalid_state" 302, []) := by
  constructor
  · exact (c5_fewer_segments_rejected (fun _ => .ok ⟨"at", some "rt", some 3600, some "sc"⟩)
      (fun _ => .ok "spu") (fun _ _ => .ok ⟨"at", some "rt", some 3600, some "sc"⟩)
      (fun _ => .ok ⟨"42", some "un", none, none⟩)
      ⟨idCipher, fun s => s.data.map Char.toNat, fun _ => none⟩
      (List.replicate 8 0) (List.replicate 16 0) (List.replicate 8 0) (List.replicate 16 0)
      "ts" "http://f" [] [("code", "c"), ("state", "abc")] "c" "abc"
      (by decide) (by decide) (by decide) (by decide) (by decide)).1 (by decide)
  · exact (c5_fewer_segments_rejected (fun _ => .ok ⟨"at", some "rt", some 3600, some "sc"⟩)
      (fun _ => .ok "spu") (fun _ _ => .ok ⟨"at", some "rt", some 3600, some "sc"⟩)
      (fun _ => .ok ⟨"42", some "un", none, none⟩)
      ⟨idCipher, fun s => s.data.map Char.toNat, fun _ => none⟩
      (List.replicate 8 0) (List.replicate 16 0) (List.replicate 8 0) (List.replicate 16 0)
      "ts" "http://f" [] [("code", "c"), ("state", "a:b")] "c" "a:b"
      (by decide) (by decide) (by decide) (by decide) (by decide)).2 (by decide)

/-- Base64 encoding of a nonempty byte list is nonempty. -/
theorem b64EncodeChunks_ne_nil : ∀ bs : List Nat, bs ≠ [] → b64EncodeChunks bs ≠ []
  | [], h => absurd rfl h
  | [_], _ => by simp [b64EncodeChunks]
  | [_, _], _ => by simp [b64EncodeChunks]
  | _ :: _ :: _ :: _, _ => by simp [b64EncodeChunks]

/-- An encrypted token is never the empty string: the Fernet token always
contains the version, timestamp, IV and MAC bytes, whatever the
plaintext — in particular when the plaintext is the empty string. -/
theorem encrypt_token_ne_empty (fc : FernetCipher) (ts iv : List Nat)
    (strEncode : String → List Nat) (tok : String) :
    encrypt_token fc ts iv strEncode tok ≠ "" := by
  rw [encrypt_token, b64urlEncode]
  intro h
  have hdata : b64EncodeChunks (fernetEncryptBytes fc ts iv (strEncode tok)) = [] :=
    congrArg String.data h
  have hne : fernetEncryptBytes fc ts iv (strEncode tok) ≠ [] := by
    rw [fernetEncryptBytes]
    intro hc
    have hlen := congrArg List.length hc
    simp only [List.length_append, List.length_cons, List.length_nil] at hlen
    omega
  exact b64EncodeChunks_ne_nil _ hne hdata

/-- Point lookup right after an upsert of the same key finds the fresh
item. -/
theorem get_item_put_item (db : DB) (item : Item) (u sk : String)
    (hk : itemKey item = some (u, sk)) :
    get_item (put_item db item) u sk = some item := by
  rw [get_item, put_item, List.find?_append]
  have hnone : List.find? (fun it => decide (itemKey it = some (u, sk)))
      (db.filter (fun it => !decide (itemKey it = itemKey item))) = none := by
    rw [List.find?_eq_none]
    intro x hx
    have hmem := (List.mem_filter.mp hx).2
    simp only [Bool.not_eq_eq_eq_not, Bool.not_true, decide_eq_false_iff_not] at hmem
    simp only [decide_eq_true_eq]
    rw [hk] at hmem
    exact hmem
  rw [hnone, Option.none_or]
  simp [List.find?, hk]

/-- Header-based session extraction yields the verification outcome on
the core function. -/
theorem get_user_from_session_core_header (parseJson : String → Option PyVal)
    (verify : String → Option String) (hkvs : List (String × String))
    (body : Option PyVal) (t : String)
    (hchain : headerOrChain (smGet hkvs "Authorization") (smGet hkvs "authorization")
      = "Bearer " ++ t)
    (ht : t ≠ "") :
    get_user_from_session_core parseJson verify hkvs body = verify t := by
  rw [get_user_from_session_core]
  simp only [hchain, pyStartsWith_bearer, bearer_append_ne_empty t, pyDropChars_bearer,
    ne_eq, not_false_iff, and_self, if_true, if_pos ht]

/-- Header-based session extraction yields the verification outcome on
the full handler-facing function. -/
theorem platform_session_ok (parseJson : String → Option PyVal)
    (verify : String → Option String) (hkvs : List (String × String))
    (body : Option PyVal) (qsp : Option StrMapVal) (t : String)
    (hA : smGet hkvs "Authorization" = some ("Bearer " ++ t)) (ht : t ≠ "") :
    get_user_from_session parseJson verify
        { headers := some (.dict hkvs), body := body, queryStringParameters := qsp }
      = .ok (verify t) :=
  congrArg Except.ok (get_user_from_session_core_header parseJson verify hkvs body t
    (by simp only [hA, headerOrChain]; exact if_pos (bearer_append_ne_empty t)) ht)

/-- The post-decryption YouTube refresh path never answers 400. -/
theorem youtube_refresh_after_statusCode (refreshFn : String → Except PyErr OAuthTokenResp)
    (env : CryptoEnv) (ts iv : List Nat) (timestamp : String) (db : DB)
    (uid rt : String) :
    (youtube_refresh_after refreshFn env ts iv timestamp db uid rt).1.statusCode ≠ 400 := by
  cases hr : refreshFn rt with
  | error e => simp [youtube_refresh_after, hr, error_response]
  | ok newTok =>
      cases he : newTok.expires_in with
      | none => simp [youtube_refresh_after, hr, he, error_response]
      | some ei => simp [youtube_refresh_after, hr, he, success_response]

/-- The post-decryption SoundCloud refresh path never answers 400. -/
theorem soundcloud_refresh_after_statusCode (refreshFn : String → Except PyErr OAuthTokenResp)
    (env : CryptoEnv) (ts iv tsR ivR : List Nat) (db : DB) (uid rt : String) :
    (soundcloud_refresh_after refreshFn env ts iv tsR ivR db uid rt).1.statusCode ≠ 400 := by
  cases hr : refreshFn rt with
  | error e => simp [soundcloud_refresh_after, hr, error_response]
  | ok newTok => simp [soundcloud_refresh_after, hr, success_response]

/-- C9: every platform connection record written by
`store_platform_tokens` carries a non-empty `refreshToken` attribute even
when the provider supplied no refresh token, because the empty string is
itself encrypted before storage; consequently, for records created
through this path, the YouTube refresh handler's 400
`No refresh token available` branch and the SoundCloud refresh handler's
no-refresh-token fallback branch are unreachable — both handlers proceed
to the refresh path with the stored ciphertext decrypted back to the
empty string. -/
theorem c9_empty_refresh_token_stored_encrypted
    (parseJson : String → Option PyVal) (verify : String → Option String)
    (refreshFn : String → Except PyErr OAuthTokenResp) (env : CryptoEnv)
    (ts iv tsA ivA tsR ivR : List Nat) (timestamp : String) (db : DB)
    (hkvs : List (String × String)) (body : Option PyVal) (qsp : Option StrMapVal)
    (t uid pid accessTok : String) (expiresIn : Int) (scope : String)
    (hB : env.fc.blockContract) (hM : env.fc.macContract)
    (htsR : tsR.length = 8) (htsRlt : ∀ x ∈ tsR, x < 256)
    (hivR : ivR.length = 16) (hivRlt : ∀ x ∈ ivR, x < 256)
    (henc0 : ∀ b ∈ env.strEncode "", b < 256)
    (hdec0 : env.strDecode (env.strEncode "") = some "")
    (hA : smGet hkvs "Authorization" = some ("Bearer " ++ t)) (ht : t ≠ "")
    (hv : verify t = some uid) (hu : uid ≠ "") :
    ∀ ct storedY dbY storedS dbS,
      ct = encrypt_token env.fc tsR ivR env.strEncode "" →
      storedY = storedPlatformItem env tsA ivA tsR ivR "youtube" uid pid accessTok ""
        expiresIn scope timestamp →
      dbY = put_item db storedY →
      storedS = storedPlatformItem env tsA ivA tsR ivR "soundcloud" uid pid accessTok ""
        expiresIn scope timestamp →
      dbS = put_item db storedS →
      dLookup storedY "refreshToken" = some (.str ct)
      ∧ dLookup storedS "refreshToken" = some (.str ct)
      ∧ ct ≠ ""
      ∧ decrypt_token env.fc env.strDecode ct = some ""
      ∧ youtube_refresh parseJson verify refreshFn env ts iv timestamp dbY
          { headers := some (.dict hkvs), body := body, queryStringParameters := qsp }
        = youtube_refresh_after refreshFn env ts iv timestamp dbY uid ""
      ∧ (youtube_refresh parseJson verify refreshFn env ts iv timestamp dbY
          { headers := some (.dict hkvs), body := body,
            queryStringParameters := qsp }).1.statusCode ≠ 400
      ∧ soundcloud_refresh parseJson verify refreshFn env ts iv tsR ivR dbS
          { headers := some (.dict hkvs), body := body, queryStringParameters := qsp }
        = soundcloud_refresh_after refreshFn env ts iv tsR ivR dbS uid ""
      ∧ (soundcloud_refresh parseJson verify refreshFn env ts iv tsR ivR dbS
          { headers := some (.dict hkvs), body := body,
            queryStringParameters := qsp }).1.statusCode ≠ 400 := by
  intro ct storedY dbY storedS dbS hct hsY hdbY hsS hdbS
  subst hct hsY hdbY hsS hdbS
  have hctne := encrypt_token_ne_empty env.fc tsR ivR env.strEncode ""
  have hdec := decrypt_token_encrypt_token_eq env.fc hB hM tsR ivR env.strEncode
    env.strDecode "" htsR htsRlt hivR hivRlt henc0 hdec0
  have hsess := platform_session_ok parseJson verify hkvs body qsp t hA ht
  rw [hv] at hsess
  have hkY : itemKey (storedPlatformItem env tsA ivA tsR ivR "youtube" uid pid accessTok ""
      expiresIn scope timestamp) = some (uid, "platform#youtube") := rfl
  have hkS : itemKey (storedPlatformItem env tsA ivA tsR ivR "soundcloud" uid pid accessTok ""
      expiresIn scope timestamp) = some (uid, "platform#soundcloud") := rfl
  have hgetY := get_item_put_item db _ uid "platform#youtube" hkY
  have hgetS := get_item_put_item db _ uid "platform#soundcloud" hkS
  have hieY : (storedPlatformItem env tsA ivA tsR ivR "youtube" uid pid accessTok ""
      expiresIn scope timestamp).isEmpty = false := rfl
  have hieS : (storedPlatformItem env tsA ivA tsR ivR "soundcloud" uid pid accessTok ""
      expiresIn scope timestamp).isEmpty = false := rfl
  have hdgY : dGet (storedPlatformItem env tsA ivA tsR ivR "youtube" uid pid accessTok ""
      expiresIn scope timestamp) "refreshToken"
      = .str (encrypt_token env.fc tsR ivR env.strEncode "") := rfl
  have hdgS : dGet (storedPlatformItem env tsA ivA tsR ivR "soundcloud" uid pid accessTok ""
      expiresIn scope timestamp) "refreshToken"
      = .str (encrypt_token env.fc tsR ivR env.strEncode "") := rfl
  have hpt : pyTruthy (.str (encrypt_token env.fc tsR ivR env.strEncode "")) = true := by
    simp [pyTruthy, hctne]
  have hyt : youtube_refresh parseJson verify refreshFn env ts iv timestamp
      (put_item db (storedPlatformItem env tsA ivA tsR ivR "youtube" uid pid accessTok ""
        expiresIn scope timestamp))
      { headers := some (.dict hkvs), body := body, queryStringParameters := qsp }
      = youtube_refresh_after refreshFn env ts iv timestamp
          (put_item db (storedPlatformItem env tsA ivA tsR ivR "youtube" uid pid accessTok ""
            expiresIn scope timestamp)) uid "" := by
    rw [youtube_refresh]
    simp only [hsess, if_neg hu, hgetY, hieY, hdgY, hpt, hdec]
    simp
  have hsc : soundcloud_refresh parseJson verify refreshFn env ts iv tsR ivR
      (put_item db (storedPlatformItem env tsA ivA tsR ivR "soundcloud" uid pid accessTok ""
        expiresIn scope timestamp))
      { headers := some (.dict hkvs), body := body, queryStringParameters := qsp }
      = soundcloud_refresh_after refreshFn env ts iv tsR ivR
          (put_item db (storedPlatformItem env tsA ivA tsR ivR "soundcloud" uid pid accessTok ""
            expiresIn scope timestamp)) uid "" := by
    rw [soundcloud_refresh]
    simp only [hsess, if_neg hu, hgetS, hieS, hdgS, hpt, hdec]
    simp
  refine ⟨rfl, rfl, hctne, hdec, hyt, ?_, hsc, ?_⟩
  · rw [hyt]
    exact youtube_refresh_after_statusCode refreshFn env ts iv timestamp _ uid ""
  · rw [hsc]
    exact soundcloud_refresh_after_statusCode refreshFn env ts iv tsR ivR _ uid ""

/-- C9 witness: the stored-ciphertext theorem at concrete inputs — the
identity block permutation, a constant MAC, the character codec, an empty
upstream refresh token and a concrete authenticated event. -/
theorem c9_empty_refresh_token_witness :
    ∃ ct : String,
      ct = encrypt_token idCipher (List.replicate 8 0) (List.replicate 16 0)
        (fun s => s.data.map Char.toNat) ""
      ∧ ct ≠ ""
      ∧ decrypt_token idCipher
          (fun bs => if bs = [] then some "" else none) ct = some ""
      ∧ youtube_refresh (fun _ => none) (fun s => if s = "tk" then some "u1" else none)
          (fun _ => .ok ⟨"na", none, some 100, none⟩)
          ⟨idCipher, fun s => s.data.map Char.toNat,
            fun bs => if bs = [] then some "" else none⟩
          (List.replicate 8 0) (List.replicate 16 0) "ts"
          (put_item []
            (storedPlatformItem
              ⟨idCipher, fun s => s.data.map Char.toNat,
                fun bs => if bs = [] then some "" else none⟩
              (List.replicate 8 0) (List.replicate 16 0) (List.replicate 8 0)
              (List.replicate 16 0) "youtube" "u1" "ch1" "at" "" 100 "sc" "ts"))
          { headers := some (.dict [("Authorization", "Bearer tk")]), body := none,
            queryStringParameters := none }
        = youtube_refresh_after (fun _ => .ok ⟨"na", none, some 100, none⟩)
            ⟨idCipher, fun s => s.data.map Char.toNat,
              fun bs => if bs = [] then some "" else none⟩
            (List.replicate 8 0) (List.replicate 16 0) "ts"
            (put_item []
              (storedPlatformItem
                ⟨idCipher, fun s => s.data.map Char.toNat,
                  fun bs => if bs = [] then some "" else none⟩
                (List.replicate 8 0) (List.replicate 16 0) (List.replicate 8 0)
                (List.replicate 16 0) "youtube" "u1" "ch1" "at" "" 100 "sc" "ts"))
            "u1" "" := by
  have h := c9_empty_refresh_token_stored_encrypted (fun _ => none)
    (fun s => if s = "tk" then some "u1" else none)
    (fun _ => .ok ⟨"na", none, some 100, none⟩)
    ⟨idCipher, fun s => s.data.map Char.toNat, fun bs => if bs = [] then some "" else none⟩
    (List.replicate 8 0) (List.replicate 16 0) (List.replicate 8 0) (List.replicate 16 0)
    (List.replicate 8 0) (List.replicate 16 0) "ts" []
    [("Authorization", "Bearer tk")] none none "tk" "u1" "ch1" "at" 100 "sc"
    (fun b hlen hlt => ⟨rfl, hlen, hlt⟩)
    (fun m => ⟨rfl, by
      intro x hx
      have := List.eq_of_mem_replicate hx
      omega⟩)
    (by simp) (by intro x hx; have := List.eq_of_mem_replicate hx; omega)
    (by simp) (by intro x hx; have := List.eq_of_mem_replicate hx; omega)
    (by decide) (by decide)
    (by decide) (by decide) (by decide) (by decide)
    _ _ _ _ _ rfl rfl rfl rfl rfl
  exact ⟨_, rfl, h.2.2.1, h.2.2.2.1, h.2.2.2.2.1⟩

end MMP
